import Mathlib

/-
Verification of the MoMoney transaction reconciliation pipeline.

This file gives a shallow embedding, in Lean 4, of the deduplication engine
(src/database/dedup.py), the categorization pipeline (src/categorize/pipeline.py),
the transfer detector (src/categorize/transfer_detect.py), the historical matcher
(src/categorize/historical.py), and the receipt matcher
(src/categorize/receipt_lookup.py), together with theorems settling the frozen
claims about them.

Modelling conventions:
- Python floats are modelled as rationals (ℚ).  All amounts occurring in the
  claims are exact decimal fractions for which float and rational arithmetic
  agree on every comparison performed by the code.
- SHA-256 content hashes are modelled by the (injective) key data they hash:
  `compute_import_hash` hashes the string "account|date|amount|desc", so that
  hash is modelled as the 4-tuple itself.
- Python dicts are modelled as insertion-ordered association lists; Python
  string truthiness (None and "" are falsy) is modelled explicitly.
- The persistence layer is modelled as a record of query functions (the spec's
  "persistence contract"); the `difflib.SequenceMatcher.ratio` library routine
  used by the fuzzy tier is an explicit function parameter.
-/

namespace MoMoney

/-- Python's `\s` / `str.strip()` whitespace set (ASCII part). -/
def isPySpace (c : Char) : Bool :=
  c = ' ' || c = '\t' || c = '\n' || c = '\r' || c = '\x0b' || c = '\x0c'

/-- Truthiness of an optional string, as Python evaluates it:
`None` and the empty string are falsy. -/
def optStrTruthy : Option String → Bool
  | none => false
  | some s => s ≠ ""

/-- Whether the first char list starts with the second. -/
def charsStartWith : List Char → List Char → Bool
  | _, [] => true
  | [], _ :: _ => false
  | h :: hs, n :: ns => h = n && charsStartWith hs ns

/-- Substring containment on char lists. -/
def charsContainsAux (needle : List Char) : List Char → Bool
  | [] => needle.isEmpty
  | c :: rest => charsStartWith (c :: rest) needle || charsContainsAux needle rest

/-- Substring containment, Python's `needle in hay` on strings. -/
def strContains (hay needle : String) : Bool :=
  charsContainsAux needle.data hay.data

/-- Python `str.upper()` (ASCII). -/
def pyUpper (s : String) : String := String.mk (s.data.map Char.toUpper)

/-- Python `str.lower()` (ASCII). -/
def pyLower (s : String) : String := String.mk (s.data.map Char.toLower)

/-- Python `str.startswith`. -/
def pyStartsWith (s pre : String) : Bool := charsStartWith s.data pre.data

/-- Python `str.endswith`. -/
def pyEndsWith (s suf : String) : Bool :=
  charsStartWith s.data.reverse suf.data.reverse

-- ── Subset-sum search (dedup.py `_find_subset_sum`) ──────────────────────────

/-- All k-element combinations of a list, in the lexicographic order produced
by `itertools.combinations`. -/
def combos {α : Type} : List α → ℕ → List (List α)
  | _, 0 => [[]]
  | [], _ + 1 => []
  | x :: xs, k + 1 => (combos xs k).map (x :: ·) ++ combos xs (k + 1)

/-- Sum of the selected indices of `amounts` (`sum(amounts[i] for i in combo)`). -/
def subsetTotal (amounts : List ℚ) (c : List ℕ) : ℚ :=
  (c.map (fun i => amounts.getD i 0)).sum

/-- Inner loop of `_find_subset_sum`: first combination within tolerance. -/
def firstCombo (amounts : List ℚ) (target tol : ℚ) : List (List ℕ) → Option (List ℕ)
  | [] => none
  | c :: rest =>
    if |subsetTotal amounts c - target| ≤ tol then some c
    else firstCombo amounts target tol rest

/-- Outer loop of `_find_subset_sum`: subset sizes tried in increasing order. -/
def searchSizes (amounts : List ℚ) (target tol : ℚ) (n : ℕ) : List ℕ → Option (List ℕ)
  | [] => none
  | s :: rest =>
    match firstCombo amounts target tol (combos (List.range n) s) with
    | some c => some c
    | none => searchSizes amounts target tol n rest

/-- `_find_subset_sum(amounts, target, tolerance)` from dedup.py: find a subset
of size ≥ 2 of `amounts` summing to `target` within `tol`; brute force,
bails out for n < 2 or n > 20. -/
def findSubsetSum (amounts : List ℚ) (target : ℚ) (tol : ℚ) : Option (List ℕ) :=
  let n := amounts.length
  if n < 2 ∨ 20 < n then none
  else searchSizes amounts target tol n (List.range' 2 (n - 1))

-- ── Description normalization (parsers/base.py `normalize_description`) ──────

/-- State machine for `re.sub(r'\d{4,}', '', ...)`: the accumulator holds the
current digit run (reversed); runs of length ≥ 4 are dropped, shorter runs
are kept. -/
def stripDigitRunsAux : List Char → List Char → List Char
  | buf, [] => if 4 ≤ buf.length then [] else buf.reverse
  | buf, c :: rest =>
    if c.isDigit then stripDigitRunsAux (c :: buf) rest
    else (if 4 ≤ buf.length then [] else buf.reverse) ++ c :: stripDigitRunsAux [] rest

/-- State machine for `re.sub(r'#\d+', '', ...)`: a `#` followed by a digit is
dropped together with the maximal digit run after it (mode = inside such a
run); a `#` not followed by a digit is kept. -/
def stripHashNumAux : Bool → List Char → List Char
  | _, [] => []
  | mode, c :: rest =>
    if mode && c.isDigit then stripHashNumAux true rest
    else if c = '#' && (rest.head?.map Char.isDigit).getD false then
      stripHashNumAux true rest
    else c :: stripHashNumAux false rest

/-- State machine for `re.sub(r'\s{2,}', ' ', ...)`: a whitespace run of
length ≥ 2 becomes a single space; a single whitespace char is kept as-is
(mode = inside a run whose replacement space was already emitted). -/
def collapseWsAux : Bool → List Char → List Char
  | _, [] => []
  | true, c :: rest =>
    if isPySpace c then collapseWsAux true rest
    else c :: collapseWsAux false rest
  | false, c :: rest =>
    if isPySpace c then
      if (rest.head?.map isPySpace).getD false then ' ' :: collapseWsAux true rest
      else c :: collapseWsAux false rest
    else c :: collapseWsAux false rest

/-- Python `str.strip()` on a char list. -/
def pyStrip (l : List Char) : List Char :=
  ((l.dropWhile isPySpace).reverse.dropWhile isPySpace).reverse

/-- Python `str.split()` (no argument): split on whitespace runs, no empties. -/
def pySplitAux : List Char → List Char → List String
  | buf, [] => if buf.isEmpty then [] else [String.mk buf.reverse]
  | buf, c :: rest =>
    if isPySpace c then
      if buf.isEmpty then pySplitAux [] rest
      else String.mk buf.reverse :: pySplitAux [] rest
    else pySplitAux (c :: buf) rest

def pySplit (s : String) : List String := pySplitAux [] s.data

/-- `normalize_description` from parsers/base.py: uppercase, strip digit runs
of length ≥ 4, strip `#123` patterns, strip `*` and `#`, collapse whitespace
runs, strip ends. -/
def normalize_description (desc : String) : String :=
  let l1 := desc.data.map Char.toUpper
  let l2 := stripDigitRunsAux [] l1
  let l3 := stripHashNumAux false l2
  let l4 := l3.filter (fun c => !(c = '*' || c = '#'))
  let l5 := collapseWsAux false l4
  String.mk (pyStrip l5)

-- ── Data model (database/models.py, parsers/base.py) ─────────────────────────

/-- `compute_import_hash` hashes the string "account|date|amount:.2f|raw_desc";
the hash is modelled by the injective key data, with the `%.2f` formatting
modelled by rounding to integer cents. -/
abbrev ImportHash := String × String × ℤ × String

/-- `compute_dedup_key` builds "account:date:cents"; modelled by the tuple. -/
abbrev DedupKey := String × String × ℤ

def compute_import_hash (accountId date : String) (amount : ℚ) (rawDesc : String) :
    ImportHash :=
  (accountId, date, round (amount * 100), rawDesc)

def compute_dedup_key (accountId date : String) (amount : ℚ) : DedupKey :=
  (accountId, date, round (amount * 100))

/-- `RawTransaction` from parsers/base.py (parser output, pre-persistence). -/
structure RawTransaction where
  date : String
  amount : ℚ
  rawDescription : String
  accountId : String
  memo : Option String := none
  txnType : Option String := none
  externalId : Option String := none
  checkNum : Option String := none
  balance : Option ℚ := none
  deriving Repr, DecidableEq, Inhabited

/-- `Transaction` from database/models.py (persisted record). -/
structure Transaction where
  accountId : String
  date : String
  amount : ℚ
  rawDescription : String
  importId : String := ""
  importHash : ImportHash := ("", "", 0, "")
  dedupKey : DedupKey := ("", "", 0)
  id : String := ""
  normalizedDescription : Option String := none
  memo : Option String := none
  txnType : Option String := none
  checkNum : Option String := none
  balance : Option ℚ := none
  externalId : Option String := none
  source : String := "bank"
  status : String := "pending"
  deriving Repr, DecidableEq, Inhabited

/-- `DedupResult` from database/dedup.py. -/
structure DedupResult where
  status : String
  tier : Option String := none
  matchedTxn : Option Transaction := none
  confidence : Option ℚ := none
  matchedSplits : Option (List Transaction) := none
  deriving Repr, DecidableEq, Inhabited

/-- The persistence queries the dedup engine issues (repository.py); modelled
as a read-only snapshot of the database, per the spec's persistence contract. -/
structure DedupRepo where
  getTransactionByExternalId : String → String → Option Transaction
  getTransactionsByImportHash : ImportHash → List Transaction
  getTransactionsByDedupKey : DedupKey → List Transaction
  getTransactionsByAccountAndDate : String → String → List Transaction

-- ── Deduplication engine (database/dedup.py) ─────────────────────────────────

/-- Tier 2 `check_external_id`: same account + same external id. -/
def check_external_id (repo : DedupRepo) (accountId : String)
    (externalId : Option String) : Option Transaction :=
  match externalId with
  | none => none
  | some e => if e = "" then none else repo.getTransactionByExternalId accountId e

/-- Tier 3 `check_import_hash`: exact content match; with an incoming external
id, only rows sharing it or having none may match. -/
def check_import_hash (repo : DedupRepo) (importHash : ImportHash)
    (externalId : Option String) : Option Transaction :=
  let found := repo.getTransactionsByImportHash importHash
  if found.isEmpty then none
  else if optStrTruthy externalId then
    found.find? (fun m => m.externalId.isNone || m.externalId == externalId)
  else found.head?

/-- Tier 3.5 `check_cross_format_duplicate`: same dedup key, opposite source
(presence vs. absence of an external id). -/
def check_cross_format_duplicate (repo : DedupRepo) (dedupKey : DedupKey)
    (hasExternalId : Bool) : List Transaction :=
  let candidates := repo.getTransactionsByDedupKey dedupKey
  if candidates.isEmpty then []
  else candidates.filter (fun c =>
    if hasExternalId then c.externalId.isNone else c.externalId.isSome)

/-- `_descriptions_related`: containment or a shared word of length ≥ 3. -/
def descriptionsRelated (descA descB : String) : Bool :=
  let a := pyUpper (normalize_description descA)
  let b := pyUpper (normalize_description descB)
  if a = "" || b = "" then false
  else if strContains b a || strContains a b then true
  else
    let wordsA := (pySplit a).filter (fun w => 3 ≤ w.length)
    let wordsB := (pySplit b).filter (fun w => 3 ≤ w.length)
    wordsA.any (fun w => wordsB.contains w)

/-- Tier 3.6 `check_split_sum_duplicate`: opposite-source related splits on the
same account/date summing to the incoming amount within one cent. -/
def check_split_sum_duplicate (repo : DedupRepo) (accountId date : String)
    (amount : ℚ) (rawDescription : String) (hasExternalId : Bool) :
    Option (List Transaction) :=
  let candidates := repo.getTransactionsByAccountAndDate accountId date
  if candidates.isEmpty then none
  else
    let opposite := candidates.filter (fun c =>
      if hasExternalId then c.externalId.isNone else c.externalId.isSome)
    if opposite.length < 2 then none
    else
      let related := opposite.filter (fun c =>
        descriptionsRelated rawDescription c.rawDescription)
      if related.length < 2 then none
      else
        let amounts := related.map (·.amount)
        match findSubsetSum amounts amount (1/100) with
        | some indices => some (indices.map (fun i => related.getD i default))
        | none => none

/-- `description_similarity`: empty-string special cases around the
`difflib.SequenceMatcher.ratio` library routine (the `ratio` parameter). -/
def descriptionSimilarity (ratio : String → String → ℚ) (a b : String) : ℚ :=
  if a = "" && b = "" then 1
  else if a = "" || b = "" then 0
  else ratio a b

/-- Tier 4 `check_fuzzy_duplicate`: best description similarity over the dedup
key candidates; `flagged` at or above the 0.85 threshold. -/
def check_fuzzy_duplicate (ratio : String → String → ℚ) (repo : DedupRepo)
    (dedupKey : DedupKey) (rawDescription : String) : DedupResult :=
  let threshold : ℚ := 85/100
  let candidates := repo.getTransactionsByDedupKey dedupKey
  if candidates.isEmpty then { status := "new" }
  else
    let normDesc := normalize_description rawDescription
    let best := candidates.foldl
      (fun (acc : Option Transaction × ℚ) candidate =>
        let existingDesc :=
          match candidate.normalizedDescription with
          | some s => if s ≠ "" then s else normalize_description candidate.rawDescription
          | none => normalize_description candidate.rawDescription
        let score := descriptionSimilarity ratio normDesc existingDesc
        if acc.2 < score then (some candidate, score) else acc)
      (none, 0)
    if threshold ≤ best.2 then
      { status := "flagged", tier := some "fuzzy", matchedTxn := best.1,
        confidence := some best.2 }
    else { status := "new" }

/-- `DedupEngine.deduplicate`: tiers 2 → 3 → 3.5 → 3.6 → 4 in order; the fuzzy
tier runs only when the incoming record has no (truthy) external id. -/
def deduplicate (ratio : String → String → ℚ) (repo : DedupRepo)
    (raw : RawTransaction) : DedupResult :=
  match check_external_id repo raw.accountId raw.externalId with
  | some existing =>
    { status := "duplicate", tier := some "external_id", matchedTxn := some existing }
  | none =>
  let importHash := compute_import_hash raw.accountId raw.date raw.amount raw.rawDescription
  match check_import_hash repo importHash raw.externalId with
  | some existing =>
    { status := "duplicate", tier := some "import_hash", matchedTxn := some existing }
  | none =>
  let dedupKey := compute_dedup_key raw.accountId raw.date raw.amount
  let crossMatches := check_cross_format_duplicate repo dedupKey (optStrTruthy raw.externalId)
  if crossMatches ≠ [] then
    { status := "duplicate", tier := some "cross_format", matchedTxn := crossMatches.head? }
  else
    let splitMatches := (check_split_sum_duplicate repo raw.accountId raw.date raw.amount
      raw.rawDescription (optStrTruthy raw.externalId)).getD []
    if splitMatches ≠ [] then
      { status := "duplicate", tier := some "split_sum", matchedTxn := splitMatches.head?,
        matchedSplits := some splitMatches }
    else if !optStrTruthy raw.externalId then
      let fuzzyResult := check_fuzzy_duplicate ratio repo dedupKey raw.rawDescription
      if fuzzyResult.status = "flagged" then fuzzyResult else { status := "new" }
    else { status := "new" }

-- ── Batch processing (database/dedup.py `process_batch`) ─────────────────────

/-- Per-batch bookkeeping of `process_batch`: output lists plus the intra-batch
seen-sets, the per-key cross-format consumption counter, and the ids of
split-sum candidates already consumed. -/
structure BatchState where
  newTxns : List Transaction
  duplicates : List DedupResult
  flagged : List Transaction
  seenExternalIds : List (String × String)
  seenImportHashes : List ImportHash
  crossFormatUsed : DedupKey → ℕ
  splitSumConsumed : List String

def initialBatchState : BatchState :=
  { newTxns := [], duplicates := [], flagged := [],
    seenExternalIds := [], seenImportHashes := [],
    crossFormatUsed := fun _ => 0, splitSumConsumed := [] }

/-- The `Transaction(...)` record built in `process_batch` (the generated uuid
is irrelevant to the claims and left at its default). -/
def mkBatchTransaction (raw : RawTransaction) (importId source status : String) :
    Transaction :=
  { accountId := raw.accountId, date := raw.date, amount := raw.amount,
    rawDescription := raw.rawDescription,
    normalizedDescription := some (normalize_description raw.rawDescription),
    memo := raw.memo, txnType := raw.txnType, checkNum := raw.checkNum,
    balance := raw.balance, externalId := raw.externalId,
    importId := importId,
    importHash := compute_import_hash raw.accountId raw.date raw.amount raw.rawDescription,
    dedupKey := compute_dedup_key raw.accountId raw.date raw.amount,
    source := source, status := status }

/-- Record the incoming row's identifiers for intra-batch dedup of later rows. -/
def recordSeenIds (st : BatchState) (raw : RawTransaction) : BatchState :=
  { st with
    seenExternalIds :=
      if optStrTruthy raw.externalId then
        st.seenExternalIds ++ [(raw.accountId, raw.externalId.getD "")]
      else st.seenExternalIds,
    seenImportHashes := st.seenImportHashes ++
      [compute_import_hash raw.accountId raw.date raw.amount raw.rawDescription] }

/-- Append a rejected duplicate (duplicates are never persisted, only counted). -/
def appendDuplicate (st : BatchState) (r : DedupResult) : BatchState :=
  { st with duplicates := st.duplicates ++ [r] }

/-- Insert path of the `process_batch` loop body: record seen identifiers and
stage the row for insertion with the given status. -/
def insertWith (st : BatchState) (importId source : String) (raw : RawTransaction)
    (status : String) : BatchState :=
  let st1 := recordSeenIds st raw
  let txn := mkBatchTransaction raw importId source status
  if status = "flagged" then { st1 with flagged := st1.flagged ++ [txn] }
  else { st1 with newTxns := st1.newTxns ++ [txn] }

/-- One iteration of the `process_batch` loop: intra-batch dedup, then
`deduplicate`, then the tier-3.5 count limit and tier-3.6 consumption
bookkeeping, then insertion. -/
def process_batch_step (ratio : String → String → ℚ) (repo : DedupRepo)
    (importId source : String) (st : BatchState) (raw : RawTransaction) : BatchState :=
  if optStrTruthy raw.externalId ∧
      (raw.accountId, raw.externalId.getD "") ∈ st.seenExternalIds then
    appendDuplicate st { status := "duplicate", tier := some "external_id" }
  else if compute_import_hash raw.accountId raw.date raw.amount raw.rawDescription
        ∈ st.seenImportHashes ∧ ¬ optStrTruthy raw.externalId then
    appendDuplicate st { status := "duplicate", tier := some "import_hash" }
  else
    let result := deduplicate ratio repo raw
    if result.status = "duplicate" ∧ result.tier = some "cross_format" then
      let dk := compute_dedup_key raw.accountId raw.date raw.amount
      let crossMatches := check_cross_format_duplicate repo dk (optStrTruthy raw.externalId)
      let used := st.crossFormatUsed dk
      if used < crossMatches.length then
        { appendDuplicate st result with
          crossFormatUsed := fun k => if k = dk then used + 1 else st.crossFormatUsed k }
      else
        insertWith st importId source raw "pending"
    else if result.status = "duplicate" ∧ result.tier = some "split_sum" then
      let matchedIds := (result.matchedSplits.getD []).map (·.id)
      if ¬ matchedIds.any (fun i => st.splitSumConsumed.contains i) then
        { appendDuplicate st result with
          splitSumConsumed := st.splitSumConsumed ++ matchedIds }
      else
        insertWith st importId source raw "pending"
    else if result.status = "duplicate" then
      appendDuplicate st result
    else
      insertWith st importId source raw
        (if result.status = "flagged" then "flagged" else "pending")

/-- `BatchResult` from database/dedup.py. -/
structure BatchResult where
  newCount : ℕ
  duplicateCount : ℕ
  flaggedCount : ℕ
  transactions : List Transaction
  deriving Repr, DecidableEq

/-- `DedupEngine.process_batch`: fold the loop body over the parsed rows in
parser order, then stage all new + flagged rows for one batch insert. -/
def process_batch (ratio : String → String → ℚ) (repo : DedupRepo)
    (rawTxns : List RawTransaction) (importId : String) (source : String := "bank") :
    BatchResult :=
  let final := rawTxns.foldl (process_batch_step ratio repo importId source) initialBatchState
  { newCount := final.newTxns.length, duplicateCount := final.duplicates.length,
    flaggedCount := final.flagged.length,
    transactions := final.newTxns ++ final.flagged }

-- ── Historical pattern matching (categorize/historical.py) ───────────────────

/-- A row of `Repository.get_historical_category_counts`: per (category, amount)
group, the total allocation count and the user-sourced sub-count. -/
structure HistRow where
  categoryId : String
  amount : ℚ
  cnt : ℕ
  userCnt : ℕ
  deriving Repr, DecidableEq, Inhabited

/-- The persistence query `match_historical` issues. -/
structure HistRepo where
  getHistoricalCategoryCounts : String → List HistRow

/-- `HistoricalMatch` from categorize/historical.py. -/
structure HistoricalMatch where
  categoryId : String
  confidence : ℚ
  matchLevel : String
  matchCount : ℕ
  agreementPct : ℚ
  deriving Repr, DecidableEq, Inhabited

/-- Python dict update `d[k] = d.get(k, 0) + w` on an insertion-ordered
association list: accumulate in place, keep first-insertion position. -/
def dictAdd : List (String × ℚ) → String → ℚ → List (String × ℚ)
  | [], cat, w => [(cat, w)]
  | (c, v) :: rest, cat, w =>
    if c = cat then (c, v + w) :: rest else (c, v) :: dictAdd rest cat w

/-- Python `max(d, key=d.get)` over an insertion-ordered association list:
the earliest entry attaining the maximal value. -/
def argmaxFirst : List (String × ℚ) → Option (String × ℚ)
  | [] => none
  | p :: rest =>
    match argmaxFirst rest with
    | none => some p
    | some q => if p.2 < q.2 then some q else some p

/-- Weighted vote of one row: `r["cnt"] + r["user_cnt"] * (USER_WEIGHT - 1)`
with `USER_WEIGHT = 1.5` (so each allocation counts 1 and each user-corrected
allocation counts 1.5). -/
def histWeight (r : HistRow) : ℚ := r.cnt + r.userCnt * (3/2 - 1)

def histExactRows (rows : List HistRow) (amount : ℚ) : List HistRow :=
  rows.filter (fun r => |r.amount - amount| ≤ 1/100)

/-- The level-1 guard of `match_historical`: nonempty exact rows, total count
≥ EXACT_MIN_COUNT = 2, unanimous category. -/
def histExactApplies (rows : List HistRow) (amount : ℚ) : Bool :=
  let er := histExactRows rows amount
  !er.isEmpty && decide (2 ≤ (er.map (·.cnt)).sum)
    && decide ((er.map (·.categoryId)).dedup.length = 1)

def histTotalWeighted (rows : List HistRow) : ℚ := (rows.map histWeight).sum

def histTotalCount (rows : List HistRow) : ℕ := (rows.map (·.cnt)).sum

/-- `cat_weights`: weighted votes aggregated by category, insertion-ordered. -/
def histCatWeights (rows : List HistRow) : List (String × ℚ) :=
  rows.foldl (fun acc r => dictAdd acc r.categoryId (histWeight r)) []

/-- Winning category of the description level (first maximal entry). -/
def histBestCat (rows : List HistRow) : String :=
  ((argmaxFirst (histCatWeights rows)).map (·.1)).getD ""

/-- Weight of the winning category of the description level. -/
def histBestWeight (rows : List HistRow) : ℚ :=
  ((argmaxFirst (histCatWeights rows)).map (·.2)).getD 0

/-- `match_historical` from categorize/historical.py: exact level (≥2 rows
within one cent, unanimous, confidence 0.95), then description level (≥3 rows
total, winner at ≥80% of the total weight, confidence 0.85).  The
`argmaxFirst = none` branch is unreachable (rows are nonempty there). -/
def match_historical (normalizedDescription : Option String) (amount : ℚ)
    (repo : Option HistRepo) : Option HistoricalMatch :=
  match normalizedDescription, repo with
  | some nd, some repo =>
    if nd = "" then none
    else
      let rows := repo.getHistoricalCategoryCounts nd
      if rows.isEmpty then none
      else
        let er := histExactRows rows amount
        if histExactApplies rows amount then
          some { categoryId := (er.headD default).categoryId, confidence := 95/100,
                 matchLevel := "exact", matchCount := (er.map (·.cnt)).sum,
                 agreementPct := 1 }
        else
          if histTotalCount rows < 3 then none
          else
            match argmaxFirst (histCatWeights rows) with
            | none => none
            | some best =>
              let agreement :=
                if 0 < histTotalWeighted rows then best.2 / histTotalWeighted rows else 0
              if 80/100 ≤ agreement then
                some { categoryId := best.1, confidence := 85/100,
                       matchLevel := "description", matchCount := histTotalCount rows,
                       agreementPct := agreement }
              else none
  | _, _ => none

-- ── Receipt matcher (categorize/receipt_lookup.py) ───────────────────────────

/-- Python `a or b` on an optional string (None and "" are falsy). -/
def pyOrStr (o : Option String) (d : String) : String :=
  match o with
  | some s => if s = "" then d else s
  | none => d

/-- `ReceiptItem` from receipt_lookup.py. -/
structure ReceiptItem where
  name : String
  amount : ℚ
  categoryId : Option String := none
  deriving Repr, DecidableEq, Inhabited

/-- `ParsedReceipt` from receipt_lookup.py. -/
structure ParsedReceipt where
  items : List ReceiptItem := []
  orderTotal : Option ℚ := none
  shipmentTotal : Option ℚ := none
  deriving Repr, DecidableEq, Inhabited

/-- `ReceiptResult` from receipt_lookup.py. -/
structure ReceiptResult where
  matched : Bool := false
  items : List ReceiptItem := []
  gmailMessageId : Option String := none
  matchType : Option String := none
  confidence : ℚ := 0
  deriving Repr, DecidableEq, Inhabited

/-- `_resolve_apple`: brute-force subset-sum over receipt items against the
absolute charge, subset sizes searched in increasing order
(`for size in range(1, len(items) + 1)`), absolute tolerance $1. -/
def resolve_apple (txn : Transaction) (items : List ReceiptItem)
    (emailBodies : List (String × String)) : Option ReceiptResult :=
  let charge := |txn.amount|
  let itemAmounts := items.map (·.amount)
  match searchSizes itemAmounts charge 1 items.length (List.range' 1 items.length) with
  | some combo =>
    some { matched := true, items := combo.map (fun i => items.getD i default),
           gmailMessageId := (emailBodies.head?).map (·.1),
           matchType := some "apple_subset_sum", confidence := 85/100 }
  | none => none

/-- Inner loop of `_subset_sum_match`: first combination with positive total
within 5% relative tolerance of the charge. -/
def amazonFirstCombo (itemAmounts : List ℚ) (charge : ℚ) :
    List (List ℕ) → Option (List ℕ)
  | [] => none
  | c :: rest =>
    let t := subsetTotal itemAmounts c
    if 0 < t ∧ |t - charge| / charge ≤ 5/100 then some c
    else amazonFirstCombo itemAmounts charge rest

/-- Outer loop of `_subset_sum_match`: subset sizes in increasing order. -/
def amazonSearchSizes (itemAmounts : List ℚ) (charge : ℚ) (n : ℕ) :
    List ℕ → Option (List ℕ)
  | [] => none
  | s :: rest =>
    match amazonFirstCombo itemAmounts charge (combos (List.range n) s) with
    | some c => some c
    | none => amazonSearchSizes itemAmounts charge n rest

/-- `_subset_sum_match`: total-match fast path then subset-sum, both with 5%
relative tolerance (division by the charge). -/
def subset_sum_match (charge : ℚ) (items : List ReceiptItem)
    (msgId : Option String) (confidence : ℚ := 80/100) : Option ReceiptResult :=
  let itemTotal := (items.map (·.amount)).sum
  if 0 < itemTotal ∧ |itemTotal - charge| / charge ≤ 5/100 then
    some { matched := true, items := items, gmailMessageId := msgId,
           matchType := some "amazon_shipment", confidence := confidence }
  else
    match amazonSearchSizes (items.map (·.amount)) charge items.length
        (List.range' 1 items.length) with
    | some combo =>
      some { matched := true, items := combo.map (fun i => items.getD i default),
             gmailMessageId := msgId, matchType := some "amazon_subset_sum",
             confidence := confidence }
    | none => none

/-- Phase 3 of `_resolve_amazon`: per-email subset-sum, first hit wins. -/
def amazonPhase3 (charge : ℚ) : List (String × ParsedReceipt) → Option ReceiptResult
  | [] => none
  | (msgId, parsed) :: rest =>
    if parsed.items.isEmpty then amazonPhase3 charge rest
    else
      match subset_sum_match charge parsed.items (some msgId) with
      | some r => some r
      | none => amazonPhase3 charge rest

/-- Truthiness of an optional float, as Python evaluates it. -/
def optRatTruthy : Option ℚ → Bool
  | none => false
  | some x => x ≠ 0

/-- `_resolve_amazon`: guard against a zero charge, then four phases in
priority order (per-email shipment total, per-email order total, per-email
subset-sum, cross-email subset-sum). -/
def resolve_amazon (txn : Transaction) (receipts : List (String × ParsedReceipt)) :
    Option ReceiptResult :=
  let charge := |txn.amount|
  if charge = 0 then none
  else
    match receipts.find? (fun pr =>
        optRatTruthy pr.2.shipmentTotal && decide (0 < pr.2.shipmentTotal.getD 0)
          && decide (|pr.2.shipmentTotal.getD 0 - charge| / charge ≤ 5/100)) with
    | some (msgId, parsed) =>
      some { matched := true, items := parsed.items, gmailMessageId := some msgId,
             matchType := some "amazon_shipment_total", confidence := 90/100 }
    | none =>
    match receipts.find? (fun pr =>
        optRatTruthy pr.2.orderTotal && decide (0 < pr.2.orderTotal.getD 0)
          && decide (|pr.2.orderTotal.getD 0 - charge| / charge ≤ 5/100)) with
    | some (msgId, parsed) =>
      some { matched := true, items := parsed.items, gmailMessageId := some msgId,
             matchType := some "amazon_order_total", confidence := 85/100 }
    | none =>
    match amazonPhase3 charge receipts with
    | some r => some r
    | none =>
      if 1 < receipts.length then
        let allItems := (receipts.map (fun p => p.2.items)).flatten
        if allItems ≠ [] then
          subset_sum_match charge allItems ((receipts.head?).map (·.1)) (75/100)
        else none
      else none

-- ── Write-trace model for the pipeline's persistence effects ─────────────────

/-- `Allocation` from database/models.py. -/
structure Allocation where
  transactionId : String
  categoryId : String
  amount : ℚ
  id : String := ""
  memo : Option String := none
  tags : Option String := none
  source : String := "auto"
  confidence : Option ℚ := none
  deriving Repr, DecidableEq, Inhabited

/-- `Transfer` from database/models.py. -/
structure Transfer where
  fromTransactionId : String
  toTransactionId : String
  transferType : String
  matchMethod : String
  id : String := ""
  confidence : Option ℚ := none
  deriving Repr, DecidableEq, Inhabited

/-- `ReceiptMatch` from database/models.py (`matched_items` is a JSON dump of
the matched item list; modelled as the list itself). -/
structure ReceiptMatchRecord where
  transactionId : String
  gmailMessageId : String
  matchType : String
  matchedItems : List ReceiptItem := []
  confidence : Option ℚ := none
  deriving Repr, DecidableEq, Inhabited

/-- A single repository write issued by the categorization pipeline. -/
inductive DbWrite where
  | insertAllocation (a : Allocation)
  | updateTransactionStatus (txnId status : String) (confidence : ℚ) (method : String)
  | insertTransfer (t : Transfer)
  | insertReceiptMatch (m : ReceiptMatchRecord)
  deriving Repr, DecidableEq

/-- The database state the pipeline writes act on. -/
structure DbState where
  txnStatus : String → String
  allocations : List Allocation
  transfers : List Transfer
  receiptMatches : List ReceiptMatchRecord

/-- Effect of one write. -/
def execWrite (s : DbState) : DbWrite → DbState
  | .insertAllocation a => { s with allocations := s.allocations ++ [a] }
  | .updateTransactionStatus txnId status _ _ =>
    { s with txnStatus := fun i => if i = txnId then status else s.txnStatus i }
  | .insertTransfer t => { s with transfers := s.transfers ++ [t] }
  | .insertReceiptMatch m => { s with receiptMatches := s.receiptMatches ++ [m] }

/-- Effect of a write sequence; an interrupted execution runs a prefix. -/
def execWrites (s : DbState) (ws : List DbWrite) : DbState :=
  ws.foldl execWrite s

/-- `Repository.get_transfer_by_transaction`: first transfer having the
transaction as either participant. -/
def get_transfer_by_transaction (s : DbState) (txnId : String) : Option Transfer :=
  s.transfers.find? (fun t =>
    t.fromTransactionId = txnId || t.toTransactionId = txnId)

/-- `Repository.get_allocations_by_transaction`. -/
def get_allocations_by_transaction (s : DbState) (txnId : String) : List Allocation :=
  s.allocations.filter (fun a => a.transactionId = txnId)

/-- `CategorizeResult` from categorize/pipeline.py. -/
structure CategorizeResult where
  categoryId : String
  confidence : ℚ
  method : String
  isTransfer : Bool := false
  transferType : Option String := none
  fromAccount : Option String := none
  toAccount : Option String := none
  receiptResult : Option ReceiptResult := none
  deriving Repr, DecidableEq, Inhabited

/-- One split-allocation write of `ReceiptLookup.apply_result`: the item's
category (or "uncategorized"), the item amount carrying the transaction's
sign. -/
def receiptAllocWrite (txn : Transaction) (result : ReceiptResult)
    (item : ReceiptItem) : DbWrite :=
  DbWrite.insertAllocation
    { transactionId := txn.id,
      categoryId := pyOrStr item.categoryId "uncategorized",
      amount := (if txn.amount < 0 then -1 else 1) * |item.amount|,
      memo := some item.name, source := "gmail_receipt",
      confidence := some result.confidence }

/-- `ReceiptLookup.apply_result` as a write trace: record the receipt match,
then (unless allocations already exist) one allocation per matched item
carrying the transaction's sign, then the status update. -/
def apply_result (txn : Transaction) (result : ReceiptResult)
    (existingAllocs : List Allocation) : List DbWrite :=
  if !result.matched || result.items.isEmpty then []
  else
    DbWrite.insertReceiptMatch
      { transactionId := txn.id, gmailMessageId := result.gmailMessageId.getD "",
        matchType := result.matchType.getD "", matchedItems := result.items,
        confidence := some result.confidence }
    :: (if !existingAllocs.isEmpty then []
        else
          (result.items.map (receiptAllocWrite txn result))
          ++ [DbWrite.updateTransactionStatus txn.id "categorized"
                result.confidence "gmail_receipt"])

/-- `_try_link_transfer` as a write trace.  `candidates` is the result of the
`find_transfer_candidates` SQL query (date-window search, ordered by date
proximity), passed in as part of the persistence snapshot.  The
already-linked check runs before any candidate use. -/
def try_link_transfer (txn : Transaction) (result : CategorizeResult)
    (s : DbState) (candidates : List Transaction) : List DbWrite :=
  match get_transfer_by_transaction s txn.id with
  | some _ => []
  | none =>
    match candidates with
    | [] => []
    | counterpart :: _ =>
      let dir :=
        if optStrTruthy result.fromAccount ∧ optStrTruthy result.toAccount then
          if txn.accountId = result.fromAccount.getD "" then (txn.id, counterpart.id)
          else if txn.accountId = result.toAccount.getD "" then (counterpart.id, txn.id)
          else if txn.amount < 0 then (txn.id, counterpart.id)
          else (counterpart.id, txn.id)
        else
          if txn.amount < 0 then (txn.id, counterpart.id)
          else (counterpart.id, txn.id)
      [DbWrite.insertTransfer
        { fromTransactionId := dir.1, toTransactionId := dir.2,
          transferType := pyOrStr result.transferType "internal-transfer",
          matchMethod := "pattern_auto_link", confidence := some (9/10) }]

/-- `apply_categorization` as a write trace: the gmail-receipt delegate when a
receipt result is attached and a lookup is available, otherwise the
allocation insert followed by the status update, with the best-effort
transfer-link attempt appended for transfer results. -/
def apply_categorization (txn : Transaction) (result : CategorizeResult)
    (s : DbState) (candidates : List Transaction) (hasReceiptLookup : Bool) :
    List DbWrite :=
  if result.method = "gmail_receipt" ∧ result.receiptResult.isSome ∧ hasReceiptLookup then
    apply_result txn (result.receiptResult.getD default)
      (get_allocations_by_transaction s txn.id)
  else
    let status := if result.method ≠ "manual_review" then "categorized" else "flagged"
    DbWrite.insertAllocation
      { transactionId := txn.id, categoryId := result.categoryId,
        amount := txn.amount, source := "auto", confidence := some result.confidence }
    :: DbWrite.updateTransactionStatus txn.id status result.confidence result.method
    :: (if result.isTransfer ∧ optStrTruthy result.transferType then
          try_link_transfer txn result s candidates
        else [])

/-- The allocations inserted by a write trace. -/
def allocationWrites (ws : List DbWrite) : List Allocation :=
  ws.filterMap (fun w => match w with
    | .insertAllocation a => some a
    | _ => none)

/-- Whether a write updates the status of the given transaction. -/
def isStatusWriteFor (txnId : String) : DbWrite → Bool
  | .updateTransactionStatus i _ _ _ => i = txnId
  | _ => false

-- ── Configuration model (config.py) ──────────────────────────────────────────

/-- An account's `category_filter` entry. -/
structure CatFilter where
  defaultCategory : Option String := none
  compatiblePrefixes : List String := []
  compatibleIds : List String := []
  deriving Repr, DecidableEq, Inhabited

/-- An account's `interest_detection` entry. -/
structure InterestDetection where
  fitidSuffix : String := ""
  categoryId : Option String := none
  deriving Repr, DecidableEq, Inhabited

/-- An entry of accounts.yaml (`Option` marks an absent key). -/
structure Account where
  id : String := ""
  name : String := ""
  budgetAppName : String := ""
  transferAliases : List String := []
  accountType : String := ""
  categoryFilter : Option CatFilter := none
  interestDetection : Option InterestDetection := none
  deriving Repr, DecidableEq, Inhabited

/-- A rule of rules.yaml `transfers` (fields default to the dict-get
defaults used by transfer_detect.py). -/
structure TransferRule where
  hasFitidSuffixKey : Bool := false
  pattern : String := ""
  fromAccount : String := ""
  toAccount : String := ""
  transferTypeField : Option String := none
  deriving Repr, DecidableEq, Inhabited

/-- A merchants.yaml rule. -/
structure MerchantRule where
  matchType : String := "contains"
  pattern : String := ""
  categoryId : Option String := none
  consistency : ℚ := 85
  merchantName : Option String := none
  deriving Repr, DecidableEq, Inhabited

/-- One amount rule inside an amount rule set. -/
structure AmountRuleEntry where
  wholeDollar : Bool := false
  amountRange : Option (ℚ × ℚ) := none
  categoryId : Option String := none
  confidenceLabel : String := "medium"
  note : Option String := none
  deriving Repr, DecidableEq, Inhabited

/-- A rules.yaml `amount_rules` set. -/
structure AmountRuleSet where
  merchantPattern : String := ""
  accounts : Option (List String) := none
  rules : List AmountRuleEntry := []
  deriving Repr, DecidableEq, Inhabited

/-- A rules.yaml `account_rules` entry. -/
structure AccountRule where
  account : Option String := none
  nonTransferCategory : Option String := none
  defaultCategory : Option String := none
  note : Option String := none
  deriving Repr, DecidableEq, Inhabited

/-- The loaded configuration (`Config` from config.py), as immutable data. -/
structure Config where
  accounts : List Account := []
  transfers : List TransferRule := []
  merchantsAuto : List MerchantRule := []
  merchantsHigh : List MerchantRule := []
  amountRules : List AmountRuleSet := []
  accountRules : List AccountRule := []
  transferCategories : List (String × String) := []
  fallbackCategory : String := "uncategorized"
  deriving Repr, DecidableEq, Inhabited

/-- Python dict insert `d[k] = v`: update in place, else append. -/
def dictInsert : List (String × String) → String → String → List (String × String)
  | [], k, v => [(k, v)]
  | (k0, v0) :: rest, k, v =>
    if k0 = k then (k0, v) :: rest else (k0, v0) :: dictInsert rest k v

/-- Python dict get `d.get(k)` on an association list. -/
def dictGet? (m : List (String × String)) (k : String) : Option String :=
  (m.find? (fun p => p.1 = k)).map (·.2)

/-- `Config.account_by_id`. -/
def account_by_id (config : Config) (accountId : String) : Option Account :=
  config.accounts.find? (fun a => a.id = accountId)

/-- `Config.category_filter_for`. -/
def category_filter_for (config : Config) (accountId : String) : Option CatFilter :=
  match account_by_id config accountId with
  | none => none
  | some a => a.categoryFilter

/-- `Config.interest_detection_for`. -/
def interest_detection_for (config : Config) (accountId : String) :
    Option InterestDetection :=
  match account_by_id config accountId with
  | none => none
  | some a => a.interestDetection

/-- `Config.transfer_name_map`: uppercased display names, budget-app names and
transfer aliases mapped to account ids, in account order. -/
def transfer_name_map (config : Config) : List (String × String) :=
  config.accounts.foldl
    (fun m acct =>
      if acct.id = "" then m
      else
        let m := if acct.name ≠ "" then dictInsert m (pyUpper acct.name) acct.id else m
        let m := if acct.budgetAppName ≠ "" then
            dictInsert m (pyUpper acct.budgetAppName) acct.id else m
        acct.transferAliases.foldl
          (fun m al => if al ≠ "" then dictInsert m (pyUpper al) acct.id else m)
          m)
    []

-- ── Transfer detection (categorize/transfer_detect.py) ───────────────────────

/-- `TransferMatch` from transfer_detect.py. -/
structure TransferMatch where
  fromAccount : String
  toAccount : String
  transferType : String
  pattern : String
  deriving Repr, DecidableEq, Inhabited

/-- `rule.get("type", "transfer") or "internal-transfer"`. -/
def transferRuleType (rule : TransferRule) : String :=
  let v := rule.transferTypeField.getD "transfer"
  if v = "" then "internal-transfer" else v

/-- Rule loop of `detect_transfer`. -/
def detectTransferRules (descUpper accountId : String) :
    List TransferRule → Option TransferMatch
  | [] => none
  | rule :: rest =>
    if rule.hasFitidSuffixKey then detectTransferRules descUpper accountId rest
    else if rule.pattern = "" then detectTransferRules descUpper accountId rest
    else if strContains descUpper (pyUpper rule.pattern) then
      if rule.fromAccount = "" ∨ rule.toAccount = "" then
        detectTransferRules descUpper accountId rest
      else if accountId = rule.fromAccount ∨ accountId = rule.toAccount then
        some { fromAccount := rule.fromAccount, toAccount := rule.toAccount,
               transferType := transferRuleType rule, pattern := rule.pattern }
      else detectTransferRules descUpper accountId rest
    else detectTransferRules descUpper accountId rest

/-- `detect_transfer`: case-insensitive substring match of configured transfer
patterns, requiring the transaction's account to be one of the two sides. -/
def detect_transfer (description accountId : String) (config : Config) :
    Option TransferMatch :=
  detectTransferRules (pyUpper description) accountId config.transfers

/-- The `^Transfer\s*:\s*(.+)` match of `detect_transfer_by_txn_type`,
composed with the `.strip()` applied to the captured group: `.` does not
match a newline, `\s*` backtracks so the group is nonempty. -/
def parseTransferTarget (description : String) : Option String :=
  let cs := description.data
  if (cs.take 8).map Char.toLower = "transfer".data then
    match (cs.drop 8).dropWhile isPySpace with
    | ':' :: r =>
      let afterWs := r.dropWhile isPySpace
      if !afterWs.isEmpty then
        some (String.mk (pyStrip (afterWs.takeWhile (fun c => c ≠ '\n'))))
      else if r.any (fun c => c ≠ '\n') then some ""
      else none
    | _ => none
  else none

/-- `_infer_transfer_type`: from the two accounts' configured account types. -/
def infer_transfer_type (accountId otherAccountId : String) (config : Config) :
    String :=
  let acctType := pyLower (((account_by_id config accountId).map (·.accountType)).getD "")
  let otherType := pyLower (((account_by_id config otherAccountId).map (·.accountType)).getD "")
  if acctType = "credit" ∨ otherType = "credit" then "cc-payment"
  else if acctType = "savings" ∨ otherType = "savings" then "savings-transfer"
  else if acctType = "loan" ∨ otherType = "loan" then "loan-payment"
  else "internal-transfer"

/-- Resolution of the captured `<name>` against the account-name table:
exact match first, then substring in either direction, first entry wins. -/
def resolveTransferTarget (config : Config) (nameUpper : String) : Option String :=
  let nameMap := transfer_name_map config
  match dictGet? nameMap nameUpper with
  | some a => some a
  | none =>
    (nameMap.find? (fun p =>
      strContains nameUpper p.1 || strContains p.1 nameUpper)).map (·.2)

/-- `detect_transfer_by_txn_type`: the 'Transfer : <name>' fallback.  Note the
code requires the prefix form, and rejects only a present non-empty
transaction type different from "transfer" (case-insensitively); a missing
or empty type passes. -/
def detect_transfer_by_txn_type (txnType : Option String) (description : String)
    (amount : ℚ) (accountId : String) (config : Config) : Option TransferMatch :=
  match parseTransferTarget description with
  | none => none
  | some targetName =>
    let badType : Bool :=
      match txnType with
      | some t => t ≠ "" && pyUpper t ≠ "TRANSFER"
      | none => false
    if badType then none
    else
      match resolveTransferTarget config (pyUpper targetName) with
      | none => none
      | some target =>
        if target = accountId then none
        else
          some { fromAccount := if amount < 0 then accountId else target,
                 toAccount := if amount < 0 then target else accountId,
                 transferType := infer_transfer_type accountId target config,
                 pattern := "txn_type:Transfer : " ++ targetName }

/-- `detect_interest`: FITID-suffix based interest detection. -/
def detect_interest (externalId : Option String) (accountId : String)
    (config : Config) : Option String :=
  match externalId with
  | none => none
  | some e =>
    if e = "" then none
    else
      match interest_detection_for config accountId with
      | none => none
      | some detection =>
        if detection.fitidSuffix ≠ "" ∧
            pyEndsWith (pyUpper e) (pyUpper detection.fitidSuffix) then
          some (detection.categoryId.getD "interest-fees")
        else none

-- ── Merchant / amount / account matchers ─────────────────────────────────────

/-- `MerchantMatch` from merchant_match.py. -/
structure MerchantMatch where
  categoryId : String
  confidence : ℚ
  merchantName : String
  tier : String
  deriving Repr, DecidableEq, Inhabited

/-- `_match_against_rules`: first matching rule wins; rules without a (truthy)
category id are skipped. -/
def match_against_rules (descUpper : String) (tier : String)
    (overrideConfidence : Option ℚ) : List MerchantRule → Option MerchantMatch
  | [] => none
  | rule :: rest =>
    let patternUpper := pyUpper rule.pattern
    let matched :=
      if rule.matchType = "exact" then descUpper = patternUpper
      else if rule.matchType = "contains" then strContains descUpper patternUpper
      else False
    if matched then
      match rule.categoryId with
      | none => match_against_rules descUpper tier overrideConfidence rest
      | some cid =>
        if cid = "" then match_against_rules descUpper tier overrideConfidence rest
        else
          some { categoryId := cid,
                 confidence := overrideConfidence.getD (rule.consistency / 100),
                 merchantName := rule.merchantName.getD rule.pattern,
                 tier := tier }
    else match_against_rules descUpper tier overrideConfidence rest

/-- `match_merchant_auto`: 100%-confidence merchants. -/
def match_merchant_auto (description : String) (config : Config) :
    Option MerchantMatch :=
  match_against_rules (pyUpper description) "auto" (some 1) config.merchantsAuto

/-- `match_merchant_high`: 80-99% merchants, per-rule consistency. -/
def match_merchant_high (description : String) (config : Config) :
    Option MerchantMatch :=
  match_against_rules (pyUpper description) "high_confidence" none config.merchantsHigh

/-- `RuleMatch` from amount_rules.py. -/
structure RuleMatch where
  categoryId : String
  confidence : ℚ
  method : String
  note : Option String := none
  deriving Repr, DecidableEq, Inhabited

/-- `_is_whole_dollar`: fractional remainder below half a cent. -/
def is_whole_dollar (amount : ℚ) : Bool := |amount - round amount| < 5/1000

/-- `_CONFIDENCE_MAP.get(label, 0.75)`. -/
def confidenceForLabel (label : String) : ℚ :=
  if label = "high" then 90/100
  else if label = "medium" then 75/100
  else if label = "low" then 60/100
  else 75/100

/-- Inner rule loop of `match_amount_rule`. -/
def matchAmountEntries (amount : ℚ) : List AmountRuleEntry → Option RuleMatch
  | [] => none
  | rule :: rest =>
    let pass :=
      if rule.wholeDollar then is_whole_dollar amount
      else match rule.amountRange with
        | some (lo, hi) => decide (min lo hi ≤ amount ∧ amount ≤ max lo hi)
        | none => false
    if pass then
      match rule.categoryId with
      | none => matchAmountEntries amount rest
      | some cid =>
        if cid = "" then matchAmountEntries amount rest
        else
          some { categoryId := cid, confidence := confidenceForLabel rule.confidenceLabel,
                 method := "amount_rule", note := rule.note }
    else matchAmountEntries amount rest

/-- Outer rule-set loop of `match_amount_rule`. -/
def matchAmountSets (descUpper : String) (amount : ℚ) (accountId : Option String) :
    List AmountRuleSet → Option RuleMatch
  | [] => none
  | rs :: rest =>
    if rs.merchantPattern = "" then matchAmountSets descUpper amount accountId rest
    else if ¬ strContains descUpper (pyUpper rs.merchantPattern) then
      matchAmountSets descUpper amount accountId rest
    else
      let scopedOut : Bool :=
        match rs.accounts with
        | some allowed => !allowed.isEmpty &&
            (accountId.isNone || !allowed.contains (accountId.getD ""))
        | none => false
      if scopedOut then matchAmountSets descUpper amount accountId rest
    else
      match matchAmountEntries amount rs.rules with
      | some m => some m
      | none => matchAmountSets descUpper amount accountId rest

/-- `match_amount_rule`: resolve ambiguous merchants by amount. -/
def match_amount_rule (description : String) (amount : ℚ) (config : Config)
    (accountId : Option String) : Option RuleMatch :=
  matchAmountSets (pyUpper description) amount accountId config.amountRules

/-- Rule loop of `match_account_rule`. -/
def matchAccountRules (accountId : String) : List AccountRule → Option RuleMatch
  | [] => none
  | rule :: rest =>
    if rule.account ≠ some accountId then matchAccountRules accountId rest
    else match rule.nonTransferCategory with
      | some c =>
        some { categoryId := c, confidence := 80/100, method := "account_rule",
               note := rule.note }
      | none =>
        match rule.defaultCategory with
        | some c =>
          some { categoryId := c, confidence := 60/100, method := "account_rule",
                 note := rule.note }
        | none => matchAccountRules accountId rest

/-- `match_account_rule`: per-account default categories. -/
def match_account_rule (accountId : String) (config : Config) : Option RuleMatch :=
  matchAccountRules accountId config.accountRules

/-- `ClaudeCategorizationResult` from claude_ai.py. -/
structure ClaudeCategorizationResult where
  categoryId : String
  confidence : ℚ
  reasoning : String := ""
  deriving Repr, DecidableEq, Inhabited

-- ── Categorization pipeline (categorize/pipeline.py) ─────────────────────────

/-- `_is_compatible`: prefix list or explicit id set. -/
def is_compatible (categoryId : String) (catFilter : CatFilter) : Bool :=
  catFilter.compatiblePrefixes.any (fun p => pyStartsWith categoryId p)
  || catFilter.compatibleIds.contains categoryId

/-- `_apply_filter`: the original id when compatible (or no filter), else the
filter's default category. -/
def apply_filter (categoryId : String) (catFilter : Option CatFilter) : String :=
  match catFilter with
  | none => categoryId
  | some f =>
    if is_compatible categoryId f then categoryId
    else f.defaultCategory.getD categoryId

/-- Category assigned to a detected transfer in Step 1:
`transfer_cats.get(type)`, falling back to
`transfer_cats.get("internal-transfer", fallback) or "uncategorized"`. -/
def transfer_category_for (config : Config) (t : TransferMatch) : String :=
  match dictGet? config.transferCategories t.transferType with
  | some c => c
  | none =>
    let c2 := (dictGet? config.transferCategories "internal-transfer").getD
      config.fallbackCategory
    if c2 = "" then "uncategorized" else c2

/-- Step 2.5 guard: `repo is not None and txn.normalized_description`. -/
def historical_step (txn : Transaction) (repo : Option HistRepo) :
    Option HistoricalMatch :=
  match repo, txn.normalizedDescription with
  | some r, some nd =>
    if nd = "" then none else match_historical (some nd) txn.amount (some r)
  | _, _ => none

/-- Step 6 guard: a receipt lookup that is present and returns a matched
result. -/
def receipt_step (txn : Transaction)
    (receiptLookup : Option (Transaction → Option ReceiptResult)) :
    Option ReceiptResult :=
  match receiptLookup with
  | some rlf =>
    match rlf txn with
    | some rr => if rr.matched then some rr else none
    | none => none
  | none => none

/-- Step 7 guard: `claude_fn is not None and repo is not None`. -/
def claude_step (txn : Transaction)
    (claudeFn : Option (Transaction → Option ClaudeCategorizationResult))
    (repo : Option HistRepo) : Option ClaudeCategorizationResult :=
  match claudeFn, repo with
  | some cfn, some _ => cfn txn
  | _, _ => none

/-- Step 6 candidate category: the first item's category, `or` the fallback. -/
def receipt_primary_category (rr : ReceiptResult) (fallback : String) : String :=
  match rr.items with
  | [] => fallback
  | item :: _ => pyOrStr item.categoryId fallback

/-- `categorize_transaction`: the pipeline cascade.  The receipt lookup and
the Claude collaborator are callback-shaped oracles (spec §6); a `none`
oracle is a skipped step, mirroring `receipt_lookup is None` /
`claude_fn is None`.  Step 6 accepts only a matched receipt result, and
Step 7 runs only when both the callback and the repository are present. -/
def categorize_transaction (txn : Transaction) (config : Config)
    (receiptLookup : Option (Transaction → Option ReceiptResult))
    (claudeFn : Option (Transaction → Option ClaudeCategorizationResult))
    (repo : Option HistRepo) : CategorizeResult :=
  let desc := txn.rawDescription
  let catFilter := category_filter_for config txn.accountId
  let fallback := config.fallbackCategory
  let step1 : Option (TransferMatch × String) :=
    match detect_transfer desc txn.accountId config with
    | some t => some (t, "transfer")
    | none =>
      match detect_transfer_by_txn_type txn.txnType desc txn.amount txn.accountId config with
      | some t => some (t, "transfer_inferred")
      | none => none
  match step1 with
  | some (t, method) =>
    { categoryId := transfer_category_for config t, confidence := 1, method := method,
      isTransfer := true, transferType := some t.transferType,
      fromAccount := some t.fromAccount, toAccount := some t.toAccount }
  | none =>
  match detect_interest txn.externalId txn.accountId config with
  | some interestCat =>
    { categoryId := interestCat, confidence := 1, method := "interest_detection" }
  | none =>
  match match_merchant_auto desc config with
  | some m =>
    { categoryId := apply_filter m.categoryId catFilter, confidence := m.confidence,
      method := "merchant_auto" }
  | none =>
  match historical_step txn repo with
  | some h =>
    { categoryId := apply_filter h.categoryId catFilter, confidence := h.confidence,
      method := "historical_pattern" }
  | none =>
  match match_amount_rule desc txn.amount config (some txn.accountId) with
  | some am =>
    { categoryId := apply_filter am.categoryId catFilter, confidence := am.confidence,
      method := "amount_rule" }
  | none =>
  match match_account_rule txn.accountId config with
  | some am =>
    { categoryId := apply_filter am.categoryId catFilter, confidence := am.confidence,
      method := "account_rule" }
  | none =>
  match match_merchant_high desc config with
  | some m =>
    { categoryId := apply_filter m.categoryId catFilter, confidence := m.confidence,
      method := "merchant_high" }
  | none =>
  match receipt_step txn receiptLookup with
  | some rr =>
    { categoryId := apply_filter (receipt_primary_category rr fallback) catFilter,
      confidence := rr.confidence, method := "gmail_receipt", receiptResult := some rr }
  | none =>
  match claude_step txn claudeFn repo with
  | some cr =>
    { categoryId := apply_filter cr.categoryId catFilter, confidence := cr.confidence,
      method := "claude_ai" }
  | none =>
  { categoryId := fallback, confidence := 0, method := "manual_review" }

-- ── Concrete fixtures used by witnesses and counterexamples ──────────────────

/-- An empty pending database. -/
def emptyDb : DbState :=
  { txnStatus := fun _ => "pending", allocations := [], transfers := [],
    receiptMatches := [] }

/-- A zero-amount Amazon-pattern transaction. -/
def zeroAmountTxn : Transaction :=
  { accountId := "acct-a", date := "2024-02-01", amount := 0,
    rawDescription := "AMZN Mktp", id := "t-zero" }

/-- A parsed receipt whose shipment total would otherwise be compared. -/
def amazonReceiptsW : List (String × ParsedReceipt) :=
  [("m1", { items := [{ name := "Widget", amount := 10 }], shipmentTotal := some 10 })]

/-- The three Apple receipt items of the C9 example. -/
def appleItems : List ReceiptItem :=
  [{ name := "Item A", amount := 2299/100 }, { name := "Item B", amount := 999/100 },
   { name := "Item C", amount := 1299/100 }]

/-- The Apple charge of the C9 example. -/
def appleTxn : Transaction :=
  { accountId := "acct-a", date := "2024-03-01", amount := -4597/100,
    rawDescription := "APPLE.COM/BILL", id := "t-apple" }

/-- The expected Apple match: all three items. -/
def appleExpectedResult : ReceiptResult :=
  { matched := true, items := appleItems, gmailMessageId := some "msg-1",
    matchType := some "apple_subset_sum", confidence := 85/100 }

/-- A transaction already linked as the `from` side of `existingLink`. -/
def xferTxnX : Transaction :=
  { accountId := "acct-a", date := "2024-01-05", amount := -50,
    rawDescription := "XFER OUT", id := "t-x" }

/-- A candidate counterpart on another account. -/
def xferTxnZ : Transaction :=
  { accountId := "acct-b", date := "2024-01-05", amount := 50,
    rawDescription := "XFER IN", id := "t-z" }

/-- An existing transfer link t-x → t-y. -/
def existingLink : Transfer :=
  { fromTransactionId := "t-x", toTransactionId := "t-y",
    transferType := "internal-transfer", matchMethod := "pattern" }

/-- A database in which `xferTxnX` is already linked. -/
def dbLinked : DbState :=
  { txnStatus := fun _ => "categorized", allocations := [],
    transfers := [existingLink], receiptMatches := [] }

/-- A transfer categorization result. -/
def xferResult : CategorizeResult :=
  { categoryId := "cat-transfer", confidence := 1, method := "transfer",
    isTransfer := true, transferType := some "internal-transfer" }

/-- A plain (non-transfer, non-receipt) categorization result. -/
def plainResult : CategorizeResult :=
  { categoryId := "cat-m", confidence := 1, method := "merchant_auto" }

/-- Historical counts: 3 votes for cat-a against 2 for cat-b (no user votes),
at an amount far from the incoming one. -/
def histRepoA : HistRepo :=
  { getHistoricalCategoryCounts := fun nd =>
      if nd = "STORE" then
        [{ categoryId := "cat-a", amount := 10, cnt := 3, userCnt := 0 },
         { categoryId := "cat-b", amount := 10, cnt := 2, userCnt := 0 }]
      else [] }

/-- Historical counts: 4 votes for cat-a against 1 for cat-b (no user votes). -/
def histRepoB : HistRepo :=
  { getHistoricalCategoryCounts := fun nd =>
      if nd = "STORE" then
        [{ categoryId := "cat-a", amount := 10, cnt := 4, userCnt := 0 },
         { categoryId := "cat-b", amount := 10, cnt := 1, userCnt := 0 }]
      else [] }

/-- An existing bank transaction carrying external id "FIT123". -/
def sampleTxnX : Transaction :=
  { accountId := "acct-a", date := "2024-01-02", amount := -25,
    rawDescription := "AMAZON MARKETPLACE", externalId := some "FIT123",
    id := "t-existing" }

/-- A repository snapshot holding exactly `sampleTxnX`. -/
def sampleRepoC5 : DedupRepo :=
  { getTransactionByExternalId := fun a e =>
      if a = "acct-a" && e = "FIT123" then some sampleTxnX else none,
    getTransactionsByImportHash := fun _ => [],
    getTransactionsByDedupKey := fun _ => [sampleTxnX],
    getTransactionsByAccountAndDate := fun _ _ => [] }

/-- An incoming record with the same external id but a differently worded
description. -/
def sampleRawC5 : RawTransaction :=
  { date := "2024-01-02", amount := -25, rawDescription := "AMZN Mktp 1234",
    accountId := "acct-a", externalId := some "FIT123" }

/-- The dedup key shared by the C3 fixtures. -/
def keyA : DedupKey := compute_dedup_key "acct-a" "2024-01-02" (-25)

/-- An existing budget-app transaction (no external id) under `keyA`. -/
def txnBudget : Transaction :=
  { accountId := "acct-a", date := "2024-01-02", amount := -25,
    rawDescription := "Amazon", id := "t-budget" }

/-- A repository snapshot with exactly one opposite-source row under `keyA`. -/
def repoC3 : DedupRepo :=
  { getTransactionByExternalId := fun _ _ => none,
    getTransactionsByImportHash := fun _ => [],
    getTransactionsByDedupKey := fun k => if k = keyA then [txnBudget] else [],
    getTransactionsByAccountAndDate := fun _ _ => [] }

/-- First incoming bank row under `keyA`. -/
def rawBank1 : RawTransaction :=
  { date := "2024-01-02", amount := -25, rawDescription := "AMAZON.COM A",
    accountId := "acct-a", externalId := some "F1" }

/-- Second incoming bank row under `keyA`. -/
def rawBank2 : RawTransaction :=
  { date := "2024-01-02", amount := -25, rawDescription := "AMAZON.COM B",
    accountId := "acct-a", externalId := some "F2" }

/-- A batch state whose cross-format slot for every key is already consumed
once. -/
def stFullC3 : BatchState :=
  { initialBatchState with crossFormatUsed := fun _ => 1 }

/-- A business-account category filter: only `biz-` categories pass. -/
def bizFilter : CatFilter :=
  { defaultCategory := some "biz-default", compatiblePrefixes := ["biz-"],
    compatibleIds := [] }

/-- Config with a filtered business account and a transfer pattern mapping to
a non-compatible category. -/
def cfgC1 : Config :=
  { accounts := [{ id := "acct-biz", categoryFilter := some bizFilter }],
    transfers := [{ pattern := "XFER", fromAccount := "acct-biz",
                    toAccount := "acct-sav", transferTypeField := some "custom-type" }],
    transferCategories := [("custom-type", "personal-cat")] }

/-- A transaction on the filtered account matching the transfer pattern. -/
def txnC1 : Transaction :=
  { accountId := "acct-biz", date := "2024-01-01", amount := -10,
    rawDescription := "XFER PAYMENT", id := "t-c1" }

/-- The transfer match produced for `txnC1` by `detect_transfer`. -/
def tC1 : TransferMatch :=
  { fromAccount := "acct-biz", toAccount := "acct-sav",
    transferType := "custom-type", pattern := "XFER" }

/-- Config with a savings and a checking account for the C2 fixtures. -/
def cfgC2 : Config :=
  { accounts := [{ id := "acct-sav", name := "Savings", accountType := "savings" },
                 { id := "acct-chk", name := "Checking", accountType := "checking" }] }

/-- The inferred transfer match of the C2 fixture. -/
def tC2 : TransferMatch :=
  { fromAccount := "acct-chk", toAccount := "acct-sav",
    transferType := "savings-transfer", pattern := "txn_type:Transfer : Savings" }

theorem combos_length {α : Type} :
    ∀ (l : List α) (k : ℕ) (c : List α), c ∈ combos l k → c.length = k := by
  intro l
  induction l with
  | nil =>
    intro k c h
    cases k with
    | zero => simp [combos] at h; simp [h]
    | succ k => simp [combos] at h
  | cons x xs ih =>
    intro k c h
    cases k with
    | zero => simp [combos] at h; simp [h]
    | succ k =>
      simp only [combos, List.mem_append, List.mem_map] at h
      rcases h with ⟨c', hc', rfl⟩ | h
      · simp [ih k c' hc']
      · exact ih (k + 1) c h

theorem firstCombo_mem {amounts : List ℚ} {target tol : ℚ} :
    ∀ {cs : List (List ℕ)} {c : List ℕ},
      firstCombo amounts target tol cs = some c → c ∈ cs := by
  intro cs
  induction cs with
  | nil => intro c h; simp [firstCombo] at h
  | cons d rest ih =>
    intro c h
    simp only [firstCombo] at h
    split at h
    · simp_all
    · exact List.mem_cons_of_mem _ (ih h)

theorem searchSizes_mem {amounts : List ℚ} {target tol : ℚ} {n : ℕ} :
    ∀ {sizes : List ℕ} {c : List ℕ},
      searchSizes amounts target tol n sizes = some c →
      ∃ s ∈ sizes, c ∈ combos (List.range n) s := by
  intro sizes
  induction sizes with
  | nil => intro c h; simp [searchSizes] at h
  | cons s rest ih =>
    intro c h
    simp only [searchSizes] at h
    split at h
    · rename_i c' hc'
      cases h
      exact ⟨s, List.mem_cons_self s rest, firstCombo_mem hc'⟩
    · obtain ⟨s', hs', hcs'⟩ := ih h
      exact ⟨s', List.mem_cons_of_mem _ hs', hcs'⟩

/-- Claim C4: `_find_subset_sum` only returns index subsets of size at least 2;
on amounts [-99.99, -16.99] with target -116.98 and tolerance 0.01 it returns
exactly the indices {0, 1}; on amounts [-100.0] with target -100.0 it returns
no match. -/
theorem findSubsetSum_spec :
    (∀ (amounts : List ℚ) (target tol : ℚ) (c : List ℕ),
        findSubsetSum amounts target tol = some c → 2 ≤ c.length)
    ∧ findSubsetSum [-9999/100, -1699/100] (-11698/100) (1/100) = some [0, 1]
    ∧ findSubsetSum [-100] (-100) (1/100) = none := by
  refine ⟨?_, ?_, ?_⟩
  case refine_2 =>
    norm_num [findSubsetSum, searchSizes, firstCombo, combos, subsetTotal,
      List.range, List.range']
  case refine_3 =>
    norm_num [findSubsetSum]
  intro amounts target tol c h
  simp only [findSubsetSum] at h
  split at h
  · exact absurd h (by simp)
  · obtain ⟨s, hs, hc⟩ := searchSizes_mem h
    have h2 : 2 ≤ s := by
      have := List.mem_range'_1.mp hs
      omega
    rw [combos_length (List.range amounts.length) s c hc]
    exact h2

/-- Witness for C4's general conjunct, discharged at the concrete first example. -/
theorem findSubsetSum_spec_witness : 2 ≤ ([0, 1] : List ℕ).length :=
  findSubsetSum_spec.1 [-9999/100, -1699/100] (-11698/100) (1/100) [0, 1]
    (by norm_num [findSubsetSum, searchSizes, firstCombo, combos, subsetTotal,
      List.range, List.range'])

/-- Claim C5: a RawTransaction carrying a (truthy) external identifier never
produces a fuzzy-tier result from `deduplicate`: an existing same-account
transaction sharing the identifier is caught at the external-identifier tier
(checked first), and the fuzzy description-similarity check is evaluated only
when the incoming record has no external identifier. -/
theorem deduplicate_external_id_tier
    (ratio : String → String → ℚ) (repo : DedupRepo) (raw : RawTransaction)
    (e : String) (he : raw.externalId = some e) (hne : e ≠ "") :
    (∀ t, repo.getTransactionByExternalId raw.accountId e = some t →
        deduplicate ratio repo raw =
          { status := "duplicate", tier := some "external_id", matchedTxn := some t })
    ∧ (deduplicate ratio repo raw).tier ≠ some "fuzzy"
    ∧ (deduplicate ratio repo raw).status ≠ "flagged" := by
  have htr : optStrTruthy raw.externalId = true := by
    simp [optStrTruthy, he, hne]
  refine ⟨?_, ?_⟩
  · intro t ht
    have hext : check_external_id repo raw.accountId raw.externalId = some t := by
      simp [check_external_id, he, hne, ht]
    simp [deduplicate, hext]
  · have key : ∀ r, deduplicate ratio repo raw = r →
        r.tier ≠ some "fuzzy" ∧ r.status ≠ "flagged" := by
      intro r hr
      unfold deduplicate at hr
      rw [htr] at hr
      simp only [Bool.not_true, Bool.false_eq_true, if_false] at hr
      repeat' split at hr
      all_goals (cases hr; exact ⟨by simp, by simp⟩)
    exact key _ rfl

/-- Witness for C5 at a concrete repository and incoming record. -/
theorem deduplicate_external_id_tier_witness :
    deduplicate (fun _ _ => 1) sampleRepoC5 sampleRawC5 =
      { status := "duplicate", tier := some "external_id",
        matchedTxn := some sampleTxnX } :=
  (deduplicate_external_id_tier (fun _ _ => 1) sampleRepoC5 sampleRawC5 "FIT123"
    rfl (by decide)).1 sampleTxnX (by decide)

theorem insertWith_crossFormatUsed (st : BatchState) (importId source : String)
    (raw : RawTransaction) (status : String) :
    (insertWith st importId source raw status).crossFormatUsed = st.crossFormatUsed := by
  unfold insertWith
  split <;> simp [recordSeenIds]

theorem insertWith_duplicates (st : BatchState) (importId source : String)
    (raw : RawTransaction) (status : String) :
    (insertWith st importId source raw status).duplicates = st.duplicates := by
  unfold insertWith
  split <;> simp [recordSeenIds]

/-- One loop iteration keeps the cross-format consumption counter for key `k`
within the number of existing opposite-source matches for `k`. -/
theorem process_batch_step_used_le
    (ratio : String → String → ℚ) (repo : DedupRepo) (importId source : String)
    (k : DedupKey) (b : Bool) (st : BatchState) (raw : RawTransaction)
    (hb : compute_dedup_key raw.accountId raw.date raw.amount = k →
      optStrTruthy raw.externalId = b)
    (hle : st.crossFormatUsed k ≤ (check_cross_format_duplicate repo k b).length) :
    (process_batch_step ratio repo importId source st raw).crossFormatUsed k
      ≤ (check_cross_format_duplicate repo k b).length := by
  simp only [process_batch_step]
  split
  · simpa [appendDuplicate] using hle
  · split
    · simpa [appendDuplicate] using hle
    · split
      · split
        · rename_i hlt
          dsimp only [appendDuplicate]
          by_cases hk : k = compute_dedup_key raw.accountId raw.date raw.amount
          · have hbb := hb hk.symm
            rw [hbb] at hlt
            rw [hk, if_pos rfl]
            omega
          · rw [if_neg hk]; exact hle
        · rw [insertWith_crossFormatUsed]; exact hle
      · split
        · split
          · simpa [appendDuplicate] using hle
          · rw [insertWith_crossFormatUsed]; exact hle
        · split
          · simpa [appendDuplicate] using hle
          · rw [insertWith_crossFormatUsed]; exact hle

theorem process_batch_fold_used_le
    (ratio : String → String → ℚ) (repo : DedupRepo) (importId source : String)
    (k : DedupKey) (b : Bool) :
    ∀ (raws : List RawTransaction) (st : BatchState),
      (∀ raw ∈ raws, compute_dedup_key raw.accountId raw.date raw.amount = k →
        optStrTruthy raw.externalId = b) →
      st.crossFormatUsed k ≤ (check_cross_format_duplicate repo k b).length →
      ((raws.foldl (process_batch_step ratio repo importId source) st).crossFormatUsed k)
        ≤ (check_cross_format_duplicate repo k b).length := by
  intro raws
  induction raws with
  | nil => intro st _ hle; simpa
  | cons raw rest ih =>
    intro st hall hle
    simp only [List.foldl_cons]
    exact ih _ (fun r hr => hall r (List.mem_cons_of_mem _ hr))
      (process_batch_step_used_le ratio repo importId source k b st raw
        (hall raw (List.mem_cons_self raw rest)) hle)

/-- Claim C3: the tier-3.5 cross-format dedup is count-limited per batch.
Conjunct 1: over a whole batch in which every row carrying dedup key `k` has
external-id truthiness `b`, the number of rows classified as cross-format
duplicates for `k` (the `cross_format_used` counter, incremented exactly once
per such classification) never exceeds the number `N` of existing
opposite-source transactions matching `k`.  Conjunct 2: a row that reaches
tier 3.5 (passes the intra-batch checks, `deduplicate` returns tier
"cross_format") after all `N` slots are consumed is not recorded as a
duplicate and is staged for insertion as a new pending transaction, leaving
the counter unchanged. -/
theorem process_batch_cross_format_count_limited :
    (∀ (ratio : String → String → ℚ) (repo : DedupRepo) (importId source : String)
        (raws : List RawTransaction) (k : DedupKey) (b : Bool),
        (∀ raw ∈ raws, compute_dedup_key raw.accountId raw.date raw.amount = k →
          optStrTruthy raw.externalId = b) →
        ((raws.foldl (process_batch_step ratio repo importId source)
            initialBatchState).crossFormatUsed k)
          ≤ (check_cross_format_duplicate repo k b).length)
    ∧ (∀ (ratio : String → String → ℚ) (repo : DedupRepo) (importId source : String)
        (st : BatchState) (raw : RawTransaction),
        ¬(optStrTruthy raw.externalId ∧
            (raw.accountId, raw.externalId.getD "") ∈ st.seenExternalIds) →
        ¬(compute_import_hash raw.accountId raw.date raw.amount raw.rawDescription
            ∈ st.seenImportHashes ∧ ¬ optStrTruthy raw.externalId) →
        (deduplicate ratio repo raw).status = "duplicate" →
        (deduplicate ratio repo raw).tier = some "cross_format" →
        (check_cross_format_duplicate repo
            (compute_dedup_key raw.accountId raw.date raw.amount)
            (optStrTruthy raw.externalId)).length
          ≤ st.crossFormatUsed (compute_dedup_key raw.accountId raw.date raw.amount) →
        (process_batch_step ratio repo importId source st raw).duplicates = st.duplicates
        ∧ (process_batch_step ratio repo importId source st raw).crossFormatUsed
            = st.crossFormatUsed
        ∧ (process_batch_step ratio repo importId source st raw).newTxns
            = st.newTxns ++ [mkBatchTransaction raw importId source "pending"]) := by
  constructor
  · intro ratio repo importId source raws k b hall
    exact process_batch_fold_used_le ratio repo importId source k b raws
      initialBatchState hall (Nat.zero_le _)
  · intro ratio repo importId source st raw h1 h2 hdup htier hfull
    unfold process_batch_step
    rw [if_neg h1, if_neg h2, if_pos ⟨hdup, htier⟩, if_neg (by omega)]
    refine ⟨insertWith_duplicates .., insertWith_crossFormatUsed .., ?_⟩
    unfold insertWith
    rw [if_neg (by decide)]
    simp [recordSeenIds]

/-- Witness for C3 at a concrete batch: one existing opposite-source row under
`keyA`, two incoming bank rows with that key; and a second row arriving with
the slot already consumed is staged as new. -/
theorem process_batch_cross_format_count_limited_witness :
    ((([rawBank1, rawBank2].foldl
        (process_batch_step (fun _ _ => 0) repoC3 "imp-1" "bank")
        initialBatchState).crossFormatUsed keyA)
      ≤ (check_cross_format_duplicate repoC3 keyA true).length)
    ∧ (process_batch_step (fun _ _ => 0) repoC3 "imp-1" "bank" stFullC3 rawBank2).newTxns
        = stFullC3.newTxns ++ [mkBatchTransaction rawBank2 "imp-1" "bank" "pending"] := by
  constructor
  · exact process_batch_cross_format_count_limited.1 (fun _ _ => 0) repoC3 "imp-1" "bank"
      [rawBank1, rawBank2] keyA true
      (by
        intro raw hm _
        simp only [List.mem_cons, List.not_mem_nil, or_false] at hm
        rcases hm with h | h <;> subst h <;> rfl)
  · refine (process_batch_cross_format_count_limited.2 (fun _ _ => 0) repoC3 "imp-1" "bank"
      stFullC3 rawBank2 ?_ ?_ ?_ ?_ ?_).2.2
    · simp [stFullC3, initialBatchState]
    · simp [stFullC3, initialBatchState]
    · simp [deduplicate, check_external_id, check_import_hash,
        check_cross_format_duplicate, repoC3, rawBank2, keyA, optStrTruthy, txnBudget]
    · simp [deduplicate, check_external_id, check_import_hash,
        check_cross_format_duplicate, repoC3, rawBank2, keyA, optStrTruthy, txnBudget]
    · simp [check_cross_format_duplicate, repoC3, rawBank2, keyA, optStrTruthy,
        txnBudget, stFullC3, initialBatchState]

theorem dictAdd_ne_nil (acc : List (String × ℚ)) (c : String) (w : ℚ) :
    dictAdd acc c w ≠ [] := by
  cases acc with
  | nil => simp [dictAdd]
  | cons p rest => simp only [dictAdd]; split <;> simp

theorem foldl_dictAdd_ne_nil (rows : List HistRow) :
    ∀ acc : List (String × ℚ), acc ≠ [] →
      rows.foldl (fun acc r => dictAdd acc r.categoryId (histWeight r)) acc ≠ [] := by
  induction rows with
  | nil => intro acc h; simpa
  | cons r rest ih =>
    intro acc _
    simp only [List.foldl_cons]
    exact ih _ (dictAdd_ne_nil acc r.categoryId (histWeight r))

theorem histCatWeights_ne_nil (rows : List HistRow) (h : rows ≠ []) :
    histCatWeights rows ≠ [] := by
  cases rows with
  | nil => exact absurd rfl h
  | cons r rest =>
    unfold histCatWeights
    simp only [List.foldl_cons]
    exact foldl_dictAdd_ne_nil rest _ (dictAdd_ne_nil [] r.categoryId (histWeight r))

theorem argmaxFirst_ne_none (l : List (String × ℚ)) (h : l ≠ []) :
    argmaxFirst l ≠ none := by
  cases l with
  | nil => exact absurd rfl h
  | cons p rest =>
    cases hq : argmaxFirst rest with
    | none => simp [argmaxFirst, hq]
    | some q => simp only [argmaxFirst, hq]; split <;> simp

theorem histTotalCount_le_weighted (rows : List HistRow) :
    (histTotalCount rows : ℚ) ≤ histTotalWeighted rows := by
  induction rows with
  | nil => simp [histTotalCount, histTotalWeighted]
  | cons r rest ih =>
    simp only [histTotalCount, histTotalWeighted, List.map_cons, List.sum_cons,
      Nat.cast_add] at *
    have hw : (r.cnt : ℚ) ≤ histWeight r := by
      unfold histWeight
      have h0 : (0 : ℚ) ≤ (r.userCnt : ℚ) * (3/2 - 1) := by positivity
      linarith
    linarith

/-- Evaluation of `match_historical` on the description level: with a truthy
description, exact level not applying, nonempty rows, winner `best` and total
count ≥ 3, the result is the description match iff the agreement ratio clears
the 0.80 threshold. -/
theorem match_historical_eval (nd : String) (hnd : nd ≠ "") (amount : ℚ)
    (repo : HistRepo)
    (hex : histExactApplies (repo.getHistoricalCategoryCounts nd) amount = false)
    (hne : (repo.getHistoricalCategoryCounts nd).isEmpty = false)
    (best : String × ℚ)
    (hbest : argmaxFirst (histCatWeights (repo.getHistoricalCategoryCounts nd)) = some best)
    (hcnt : ¬ histTotalCount (repo.getHistoricalCategoryCounts nd) < 3)
    (htw : 0 < histTotalWeighted (repo.getHistoricalCategoryCounts nd)) :
    match_historical (some nd) amount (some repo) =
      (if 80/100 ≤ best.2 / histTotalWeighted (repo.getHistoricalCategoryCounts nd) then
        some { categoryId := best.1, confidence := 85/100, matchLevel := "description",
               matchCount := histTotalCount (repo.getHistoricalCategoryCounts nd),
               agreementPct := best.2 / histTotalWeighted (repo.getHistoricalCategoryCounts nd) }
      else none) := by
  simp only [match_historical]
  rw [if_neg hnd, hne, hex, hbest, if_neg hcnt]
  simp [htw]

/-- Claim C6: with the exact level not applying, `match_historical` returns a
(description-level) match iff the prior rows number at least 3 and the top
category's weighted vote share (allocations weighted 1, user-corrected ones
1.5) is at least 80% of the total weight, with confidence 0.85; in particular
3 votes against 2 (60%) yields no match while 4 against 1 (80%) matches. -/
theorem match_historical_description_threshold :
    (∀ (nd : String) (amount : ℚ) (repo : HistRepo),
        nd ≠ "" →
        histExactApplies (repo.getHistoricalCategoryCounts nd) amount = false →
        (((∃ m, match_historical (some nd) amount (some repo) = some m) ↔
          3 ≤ histTotalCount (repo.getHistoricalCategoryCounts nd) ∧
            80/100 * histTotalWeighted (repo.getHistoricalCategoryCounts nd)
              ≤ histBestWeight (repo.getHistoricalCategoryCounts nd))
        ∧ ∀ m, match_historical (some nd) amount (some repo) = some m →
            m.matchLevel = "description" ∧ m.confidence = 85/100 ∧
            m.categoryId = histBestCat (repo.getHistoricalCategoryCounts nd)))
    ∧ match_historical (some "STORE") 50 (some histRepoA) = none
    ∧ (∃ m, match_historical (some "STORE") 50 (some histRepoB) = some m
        ∧ m.categoryId = "cat-a" ∧ m.confidence = 85/100) := by
  refine ⟨?_, ?_, ?_⟩
  · intro nd amount repo hnd hex
    by_cases hempty : (repo.getHistoricalCategoryCounts nd).isEmpty
    · have hval : match_historical (some nd) amount (some repo) = none := by
        simp only [match_historical]
        rw [if_neg hnd, hempty]
        simp
      have hcnt0 : histTotalCount (repo.getHistoricalCategoryCounts nd) = 0 := by
        rw [List.isEmpty_iff] at hempty
        simp [histTotalCount, hempty]
      constructor
      · rw [hval]; simp [hcnt0]
      · intro m hm; rw [hval] at hm; cases hm
    · have hne : (repo.getHistoricalCategoryCounts nd).isEmpty = false := by
        simpa using hempty
      obtain ⟨best, hbest⟩ :
          ∃ p, argmaxFirst (histCatWeights (repo.getHistoricalCategoryCounts nd)) = some p := by
        have h1 : (repo.getHistoricalCategoryCounts nd) ≠ [] := by
          simpa [List.isEmpty_iff] using hempty
        have := argmaxFirst_ne_none _ (histCatWeights_ne_nil _ h1)
        cases h : argmaxFirst (histCatWeights (repo.getHistoricalCategoryCounts nd)) with
        | none => exact absurd h this
        | some p => exact ⟨p, rfl⟩
      by_cases hcnt : histTotalCount (repo.getHistoricalCategoryCounts nd) < 3
      · have hval : match_historical (some nd) amount (some repo) = none := by
          simp only [match_historical]
          rw [if_neg hnd, hne, hex, if_pos hcnt]
          simp
        constructor
        · rw [hval]; simp; omega
        · intro m hm; rw [hval] at hm; cases hm
      · have htw : 0 < histTotalWeighted (repo.getHistoricalCategoryCounts nd) := by
          have h1 := histTotalCount_le_weighted (repo.getHistoricalCategoryCounts nd)
          have h2 : (3 : ℚ) ≤ (histTotalCount (repo.getHistoricalCategoryCounts nd) : ℚ) := by
            exact_mod_cast Nat.le_of_not_lt hcnt
          linarith
        have hval := match_historical_eval nd hnd amount repo hex hne best hbest hcnt htw
        have hbw : histBestWeight (repo.getHistoricalCategoryCounts nd) = best.2 := by
          simp [histBestWeight, hbest]
        have hbc : histBestCat (repo.getHistoricalCategoryCounts nd) = best.1 := by
          simp [histBestCat, hbest]
        by_cases hag : 80/100 ≤ best.2 / histTotalWeighted (repo.getHistoricalCategoryCounts nd)
        · rw [if_pos hag] at hval
          constructor
          · rw [hval]
            constructor
            · intro _
              exact ⟨Nat.le_of_not_lt hcnt, by rw [hbw]; exact (le_div_iff₀ htw).mp hag⟩
            · intro _
              exact ⟨_, rfl⟩
          · intro m hm
            rw [hval] at hm
            cases hm
            exact ⟨rfl, rfl, by rw [hbc]⟩
        · rw [if_neg hag] at hval
          constructor
          · rw [hval]
            constructor
            · rintro ⟨m, hm⟩; cases hm
            · rintro ⟨-, hge⟩
              rw [hbw] at hge
              exact absurd ((le_div_iff₀ htw).mpr hge) hag
          · intro m hm; rw [hval] at hm; cases hm
  · norm_num [match_historical, histExactApplies, histExactRows, histTotalCount,
      histTotalWeighted, histCatWeights, histWeight, dictAdd, argmaxFirst, histRepoA]
  · norm_num [match_historical, histExactApplies, histExactRows, histTotalCount,
      histTotalWeighted, histCatWeights, histWeight, dictAdd, argmaxFirst, histRepoB]
    exact ⟨_, ⟨by decide, rfl⟩, rfl, rfl⟩

/-- Witness for C6's general conjunct at the 4-against-1 fixture. -/
theorem match_historical_description_threshold_witness :
    ∃ m, match_historical (some "STORE") 50 (some histRepoB) = some m :=
  ((match_historical_description_threshold.1 "STORE" 50 histRepoB (by decide)
      (by norm_num [histExactApplies, histExactRows, histRepoB])).1).mpr
    ⟨by norm_num [histTotalCount, histRepoB],
     by norm_num [histTotalWeighted, histBestWeight, histCatWeights, histWeight,
       dictAdd, argmaxFirst, histRepoB]⟩

/-- Claim C10: a zero-amount transaction is rejected by `_resolve_amazon`
before any relative-tolerance comparison, so every division by the absolute
charge in the Amazon matching phases has a nonzero divisor. -/
theorem resolve_amazon_zero_charge (txn : Transaction)
    (receipts : List (String × ParsedReceipt)) (h : txn.amount = 0) :
    resolve_amazon txn receipts = none := by
  simp [resolve_amazon, h]

/-- Witness for C10 at a zero-amount transaction whose receipt would otherwise
be compared against the charge. -/
theorem resolve_amazon_zero_charge_witness :
    resolve_amazon zeroAmountTxn amazonReceiptsW = none :=
  resolve_amazon_zero_charge zeroAmountTxn amazonReceiptsW rfl

/-- Claim C9: on items 22.99, 9.99, 12.99 against a charge of 45.97 the Apple
matcher selects all three items (no subset of size 1 or 2 lies within the
$1 tolerance, and sizes are searched in increasing order), and applying the
result creates one allocation per matched item, each carrying the
transaction's sign, summing to the transaction amount. -/
theorem resolve_apple_split_allocations :
    resolve_apple appleTxn appleItems [("msg-1", "body")] = some appleExpectedResult
    ∧ appleExpectedResult.items = appleItems
    ∧ ((combos (List.range 3) 1 ++ combos (List.range 3) 2).filter
        (fun c => |subsetTotal (appleItems.map (·.amount)) c - abs appleTxn.amount| ≤ 1)) = []
    ∧ (allocationWrites (apply_result appleTxn appleExpectedResult [])).map (·.amount)
        = [-2299/100, -999/100, -1299/100]
    ∧ ((allocationWrites (apply_result appleTxn appleExpectedResult [])).map (·.amount)).sum
        = appleTxn.amount := by
  refine ⟨?_, rfl, ?_, ?_, ?_⟩
  · norm_num [resolve_apple, searchSizes, firstCombo, combos, subsetTotal,
      appleItems, appleTxn, appleExpectedResult, List.range, List.range',
      abs_of_nonneg, abs_of_nonpos, abs_le, lt_abs]
  · norm_num [combos, subsetTotal, appleItems, appleTxn, List.range,
      abs_of_nonneg, abs_of_nonpos, abs_le, lt_abs]
  · norm_num [allocationWrites, apply_result, receiptAllocWrite, appleExpectedResult,
      appleItems, appleTxn, pyOrStr, List.filterMap, abs_of_nonneg, abs_of_nonpos]
  · norm_num [allocationWrites, apply_result, receiptAllocWrite, appleExpectedResult,
      appleItems, appleTxn, pyOrStr, List.filterMap, abs_of_nonneg, abs_of_nonpos]

/-- Claim C8: a transaction already participating in a transfer (as either
side) is never re-linked: `_try_link_transfer` issues no write and leaves the
database unchanged, because the existing-transfer check precedes any
candidate search or insert. -/
theorem try_link_transfer_no_relink
    (txn : Transaction) (result : CategorizeResult) (s : DbState)
    (candidates : List Transaction) (t : Transfer) (ht : t ∈ s.transfers)
    (hpart : t.fromTransactionId = txn.id ∨ t.toTransactionId = txn.id) :
    try_link_transfer txn result s candidates = []
    ∧ execWrites s (try_link_transfer txn result s candidates) = s := by
  have hsome : (get_transfer_by_transaction s txn.id).isSome := by
    rw [get_transfer_by_transaction, List.find?_isSome]
    exact ⟨t, ht, by rcases hpart with h | h <;> simp [h]⟩
  obtain ⟨u, hu⟩ := Option.isSome_iff_exists.mp hsome
  have h0 : try_link_transfer txn result s candidates = [] := by
    unfold try_link_transfer
    rw [hu]
  exact ⟨h0, by rw [h0]; rfl⟩

/-- Witness for C8: t-x is already linked to t-y; an attempt to link it to
t-z changes nothing. -/
theorem try_link_transfer_no_relink_witness :
    try_link_transfer xferTxnX xferResult dbLinked [xferTxnZ] = []
    ∧ execWrites dbLinked (try_link_transfer xferTxnX xferResult dbLinked [xferTxnZ])
        = dbLinked :=
  try_link_transfer_no_relink xferTxnX xferResult dbLinked [xferTxnZ] existingLink
    (by simp [dbLinked]) (Or.inl rfl)

/-- C7 counterexample: a transfer categorization with an available counterpart
issues three writes (allocation, status, transfer link), so
`apply_categorization` does not perform exactly two state writes. -/
theorem apply_categorization_three_writes :
    (apply_categorization xferTxnX xferResult emptyDb [xferTxnZ] false).length = 3
    ∧ (apply_categorization xferTxnX xferResult emptyDb [xferTxnZ] false).length ≠ 2 := by
  constructor <;>
  · norm_num [apply_categorization, try_link_transfer, get_transfer_by_transaction,
      emptyDb, xferResult, xferTxnX, optStrTruthy, pyOrStr]
    decide

theorem execWrites_append (s : DbState) (l1 l2 : List DbWrite) :
    execWrites s (l1 ++ l2) = execWrites (execWrites s l1) l2 := by
  simp [execWrites]

theorem execWrite_status_of_not_for (txnId : String) (s : DbState) (w : DbWrite)
    (h : isStatusWriteFor txnId w = false) :
    (execWrite s w).txnStatus txnId = s.txnStatus txnId := by
  cases w with
  | updateTransactionStatus i st c m =>
    simp only [isStatusWriteFor, decide_eq_false_iff_not] at h
    simp only [execWrite]
    rw [if_neg (fun hh => h hh.symm)]
  | insertAllocation a => rfl
  | insertTransfer t => rfl
  | insertReceiptMatch m => rfl

theorem execWrites_status_of_no_update (txnId : String) (ws : List DbWrite)
    (h : ∀ w ∈ ws, isStatusWriteFor txnId w = false) :
    ∀ s, (execWrites s ws).txnStatus txnId = s.txnStatus txnId := by
  induction ws with
  | nil => intro s; rfl
  | cons w rest ih =>
    intro s
    have h1 : execWrites s (w :: rest) = execWrites (execWrite s w) rest := rfl
    rw [h1, ih (fun v hv => h v (List.mem_cons_of_mem _ hv)) (execWrite s w)]
    exact execWrite_status_of_not_for txnId s w (h w (List.mem_cons_self w rest))

theorem execWrite_alloc_mem (a : Allocation) (s : DbState) (w : DbWrite)
    (h : a ∈ s.allocations) : a ∈ (execWrite s w).allocations := by
  cases w <;> simp [execWrite, h]

theorem execWrites_alloc_mem (a : Allocation) (ws : List DbWrite) :
    ∀ s : DbState, a ∈ s.allocations → a ∈ (execWrites s ws).allocations := by
  induction ws with
  | nil => intro s h; exact h
  | cons w rest ih =>
    intro s h
    exact ih (execWrite s w) (execWrite_alloc_mem a s w h)

theorem try_link_transfer_shape (txn : Transaction) (result : CategorizeResult)
    (s : DbState) (candidates : List Transaction) :
    try_link_transfer txn result s candidates = []
    ∨ ∃ t, try_link_transfer txn result s candidates = [DbWrite.insertTransfer t] := by
  unfold try_link_transfer
  split
  · exact Or.inl rfl
  · split
    · exact Or.inl rfl
    · exact Or.inr ⟨_, rfl⟩

theorem apply_result_shape (txn : Transaction) (result : ReceiptResult)
    (existing : List Allocation) :
    apply_result txn result existing = []
    ∨ (∃ m, apply_result txn result existing = [DbWrite.insertReceiptMatch m])
    ∨ (∃ m, result.items ≠ [] ∧
        apply_result txn result existing =
          DbWrite.insertReceiptMatch m ::
            (result.items.map (receiptAllocWrite txn result)
              ++ [DbWrite.updateTransactionStatus txn.id "categorized"
                    result.confidence "gmail_receipt"])) := by
  unfold apply_result
  split
  · exact Or.inl rfl
  · rename_i hcond
    have hitems : result.items ≠ [] := by
      intro hnil
      exact hcond (by simp [hnil])
    split
    · exact Or.inr (Or.inl ⟨_, rfl⟩)
    · exact Or.inr (Or.inr ⟨_, hitems, rfl⟩)

/-- Claim C7 (amended): in the direct (non-receipt-delegate) path the first
two writes of `apply_categorization` are the allocation insert then the
status update, in that order, and any further write is a transfer-link
insert; an execution interrupted before the second write leaves the
transaction status unchanged; and on every path, for every interrupted
prefix, a transaction that left the pending status has an allocation row. -/
theorem apply_categorization_two_phase :
    (∀ (txn : Transaction) (result : CategorizeResult) (s : DbState)
        (candidates : List Transaction) (hrl : Bool),
        ¬(result.method = "gmail_receipt" ∧ result.receiptResult.isSome ∧ hrl) →
        (apply_categorization txn result s candidates hrl).take 2 =
          [DbWrite.insertAllocation
             { transactionId := txn.id, categoryId := result.categoryId,
               amount := txn.amount, source := "auto",
               confidence := some result.confidence },
           DbWrite.updateTransactionStatus txn.id
             (if result.method ≠ "manual_review" then "categorized" else "flagged")
             result.confidence result.method]
        ∧ ∀ w ∈ (apply_categorization txn result s candidates hrl).drop 2,
            ∃ t, w = DbWrite.insertTransfer t)
    ∧ (∀ (txn : Transaction) (result : CategorizeResult) (s : DbState)
        (candidates : List Transaction) (hrl : Bool),
        ¬(result.method = "gmail_receipt" ∧ result.receiptResult.isSome ∧ hrl) →
        ∀ n ≤ 1,
          (execWrites s ((apply_categorization txn result s candidates hrl).take n)).txnStatus
            txn.id = s.txnStatus txn.id)
    ∧ (∀ (txn : Transaction) (result : CategorizeResult) (s : DbState)
        (candidates : List Transaction) (hrl : Bool) (n : ℕ),
        s.txnStatus txn.id = "pending" →
        (execWrites s ((apply_categorization txn result s candidates hrl).take n)).txnStatus
          txn.id ≠ "pending" →
        ((execWrites s ((apply_categorization txn result s candidates hrl).take n)).allocations.filter
          (fun a => a.transactionId = txn.id)) ≠ []) := by
  refine ⟨?_, ?_, ?_⟩
  · intro txn result s candidates hrl h
    constructor
    · unfold apply_categorization
      rw [if_neg h]
      rfl
    · intro w hw
      unfold apply_categorization at hw
      rw [if_neg h] at hw
      simp only [List.drop_succ_cons, List.drop_zero] at hw
      split at hw
      · rcases try_link_transfer_shape txn result s candidates with h0 | ⟨t, h0⟩
        · rw [h0] at hw; cases hw
        · rw [h0] at hw
          simp only [List.mem_singleton] at hw
          exact ⟨t, hw⟩
      · cases hw
  · intro txn result s candidates hrl h n hn
    unfold apply_categorization
    rw [if_neg h]
    interval_cases n
    · rfl
    · rfl
  · intro txn result s candidates hrl n hpend hchange
    by_cases hpath : result.method = "gmail_receipt" ∧ result.receiptResult.isSome ∧ hrl
    · rw [apply_categorization, if_pos hpath] at hchange ⊢
      rcases apply_result_shape txn (result.receiptResult.getD default)
          (get_allocations_by_transaction s txn.id) with h0 | ⟨m, h0⟩ | ⟨m, hitems, h0⟩
      · rw [h0] at hchange
        simp only [List.take_nil] at hchange
        exact absurd hpend hchange
      · rw [h0] at hchange
        have hns : ∀ w ∈ ([DbWrite.insertReceiptMatch m].take n),
            isStatusWriteFor txn.id w = false := by
          intro w hw
          have := List.take_subset n [DbWrite.insertReceiptMatch m] hw
          simp only [List.mem_singleton] at this
          subst this
          rfl
        rw [execWrites_status_of_no_update txn.id _ hns s] at hchange
        exact absurd hpend hchange
      · rw [h0] at hchange ⊢
        set allocs := (result.receiptResult.getD default).items.map
          (receiptAllocWrite txn (result.receiptResult.getD default)) with hallocs
        cases n with
        | zero =>
          simp only [List.take_zero] at hchange
          exact absurd hpend hchange
        | succ nn =>
          simp only [List.take_succ_cons] at hchange ⊢
          by_cases hle : nn ≤ allocs.length
          · exfalso
            rw [List.take_append_of_le_length hle] at hchange
            have hns : ∀ w ∈ DbWrite.insertReceiptMatch m :: allocs.take nn,
                isStatusWriteFor txn.id w = false := by
              intro w hw
              rcases List.mem_cons.mp hw with hw | hw
              · subst hw; rfl
              · have := List.take_subset nn allocs hw
                rw [hallocs] at this
                obtain ⟨item, _, hitem⟩ := List.mem_map.mp this
                rw [← hitem]
                rfl
            rw [execWrites_status_of_no_update txn.id _ hns s] at hchange
            exact hchange hpend
          · have hfull : (allocs ++ [DbWrite.updateTransactionStatus txn.id "categorized"
                  (result.receiptResult.getD default).confidence "gmail_receipt"]).take nn
                = allocs ++ [DbWrite.updateTransactionStatus txn.id "categorized"
                  (result.receiptResult.getD default).confidence "gmail_receipt"] := by
              apply List.take_of_length_le
              simp only [List.length_append, List.length_singleton]
              omega
            rw [hfull] at hchange ⊢
            obtain ⟨item0, rest0, hit0⟩ :=
              List.exists_cons_of_ne_nil hitems
            have hsplit : DbWrite.insertReceiptMatch m :: (allocs ++
                [DbWrite.updateTransactionStatus txn.id "categorized"
                  (result.receiptResult.getD default).confidence "gmail_receipt"])
                = [DbWrite.insertReceiptMatch m,
                    receiptAllocWrite txn (result.receiptResult.getD default) item0]
                  ++ (rest0.map (receiptAllocWrite txn (result.receiptResult.getD default))
                      ++ [DbWrite.updateTransactionStatus txn.id "categorized"
                          (result.receiptResult.getD default).confidence "gmail_receipt"]) := by
              rw [hallocs, hit0]
              simp
            rw [hsplit]
            have hmem0 : ({ transactionId := txn.id,
                            categoryId := pyOrStr item0.categoryId "uncategorized",
                            amount := (if txn.amount < 0 then -1 else 1) * |item0.amount|,
                            memo := some item0.name, source := "gmail_receipt",
                            confidence := some (result.receiptResult.getD default).confidence } :
                          Allocation) ∈
                (execWrites s [DbWrite.insertReceiptMatch m,
                  receiptAllocWrite txn (result.receiptResult.getD default) item0]).allocations := by
              simp [execWrites, execWrite, receiptAllocWrite]
            have hmem := execWrites_alloc_mem _
              (rest0.map (receiptAllocWrite txn (result.receiptResult.getD default))
                ++ [DbWrite.updateTransactionStatus txn.id "categorized"
                      (result.receiptResult.getD default).confidence "gmail_receipt"]) _ hmem0
            rw [execWrites_append]
            exact List.ne_nil_of_mem (List.mem_filter.mpr ⟨hmem, by simp⟩)
    · rw [apply_categorization, if_neg hpath] at hchange ⊢
      cases n with
      | zero =>
        simp only [List.take_zero] at hchange
        exact absurd hpend hchange
      | succ nn =>
        cases nn with
        | zero =>
          simp only [List.take_succ_cons, List.take_zero] at hchange
          exact absurd hpend hchange
        | succ mm =>
          simp only [List.take_succ_cons] at hchange ⊢
          have hmem0 : ({ transactionId := txn.id, categoryId := result.categoryId,
                          amount := txn.amount, source := "auto",
                          confidence := some result.confidence } : Allocation) ∈
              (execWrite s (DbWrite.insertAllocation
                { transactionId := txn.id, categoryId := result.categoryId,
                  amount := txn.amount, source := "auto",
                  confidence := some result.confidence })).allocations := by
            simp [execWrite]
          have hmem1 := execWrite_alloc_mem _ _
            (DbWrite.updateTransactionStatus txn.id
              (if result.method ≠ "manual_review" then "categorized" else "flagged")
              result.confidence result.method) hmem0
          have hmem := execWrites_alloc_mem _
            ((if result.isTransfer ∧ optStrTruthy result.transferType then
                try_link_transfer txn result s candidates
              else []).take mm) _ hmem1
          exact List.ne_nil_of_mem (List.mem_filter.mpr ⟨hmem, by simp⟩)

/-- Witness for C7's amended theorem: on a plain merchant categorization the
first two writes are the allocation insert then the status update. -/
theorem apply_categorization_two_phase_witness :
    (apply_categorization xferTxnX plainResult emptyDb [] false).take 2 =
      [DbWrite.insertAllocation
         { transactionId := xferTxnX.id, categoryId := plainResult.categoryId,
           amount := xferTxnX.amount, source := "auto",
           confidence := some plainResult.confidence },
       DbWrite.updateTransactionStatus xferTxnX.id
         (if plainResult.method ≠ "manual_review" then "categorized" else "flagged")
         plainResult.confidence plainResult.method] :=
  (apply_categorization_two_phase.1 xferTxnX plainResult emptyDb [] false
    (by decide)).1

/-- C2 counterexample: with the bank transaction type absent (`None`, hence
not "transfer"), `detect_transfer_by_txn_type` still returns a match for a
'Transfer : <name>' description, contradicting the claim that a match
requires a bank-provided "transfer" type. -/
theorem detect_transfer_by_txn_type_matches_without_type :
    detect_transfer_by_txn_type none "Transfer : Savings" (-50) "acct-chk" cfgC2
      = some tC2 := by
  decide

/-- Claim C2 (amended): `detect_transfer_by_txn_type` returns a match iff the
description has the form 'Transfer : <name>', the bank transaction type is
absent, empty, or equal to "transfer" case-insensitively, and `<name>`
resolves through the account-name table (exact first, then substring either
direction) to an account different from the transaction's own, with the
direction taken from the amount sign. -/
theorem detect_transfer_by_txn_type_characterization :
    (∀ (txnType : Option String) (description : String) (amount : ℚ)
        (accountId : String) (config : Config) (m : TransferMatch),
        detect_transfer_by_txn_type txnType description amount accountId config = some m →
        ∃ name target,
          parseTransferTarget description = some name
          ∧ (∀ t, txnType = some t → t ≠ "" → pyUpper t = "TRANSFER")
          ∧ resolveTransferTarget config (pyUpper name) = some target
          ∧ target ≠ accountId
          ∧ m = { fromAccount := if amount < 0 then accountId else target,
                  toAccount := if amount < 0 then target else accountId,
                  transferType := infer_transfer_type accountId target config,
                  pattern := "txn_type:Transfer : " ++ name })
    ∧ (∀ (txnType : Option String) (description : String) (amount : ℚ)
        (accountId : String) (config : Config) (name target : String),
        parseTransferTarget description = some name →
        (∀ t, txnType = some t → t ≠ "" → pyUpper t = "TRANSFER") →
        resolveTransferTarget config (pyUpper name) = some target →
        target ≠ accountId →
        detect_transfer_by_txn_type txnType description amount accountId config =
          some { fromAccount := if amount < 0 then accountId else target,
                 toAccount := if amount < 0 then target else accountId,
                 transferType := infer_transfer_type accountId target config,
                 pattern := "txn_type:Transfer : " ++ name }) := by
  constructor
  · intro txnType description amount accountId config m h
    unfold detect_transfer_by_txn_type at h
    cases hp : parseTransferTarget description with
    | none => rw [hp] at h; cases h
    | some name =>
      rw [hp] at h
      dsimp only at h
      refine ⟨name, ?_⟩
      cases hb : (match txnType with
          | some t => decide (t ≠ "") && decide (pyUpper t ≠ "TRANSFER")
          | none => false) with
      | true =>
        rw [hb] at h
        simp at h
      | false =>
        rw [hb] at h
        simp only [Bool.false_eq_true, if_false] at h
        have htype : ∀ t, txnType = some t → t ≠ "" → pyUpper t = "TRANSFER" := by
          intro t ht hne
          rw [ht] at hb
          simp only [Bool.and_eq_false_iff, decide_eq_false_iff_not, not_not] at hb
          rcases hb with hb | hb
          · exact absurd hb hne
          · exact hb
        cases hr : resolveTransferTarget config (pyUpper name) with
        | none => rw [hr] at h; exact absurd h (by simp)
        | some target =>
          rw [hr] at h
          dsimp only at h
          by_cases hta : target = accountId
          · rw [if_pos hta] at h; cases h
          · rw [if_neg hta] at h
            cases h
            exact ⟨target, rfl, htype, rfl, hta, rfl⟩
  · intro txnType description amount accountId config name target hname htype hres hne
    unfold detect_transfer_by_txn_type
    rw [hname]
    dsimp only
    cases txnType with
    | none =>
      simp only [Bool.false_eq_true, if_false]
      rw [hres]
      dsimp only
      rw [if_neg hne]
    | some t =>
      have hb : (decide (t ≠ "") && decide (pyUpper t ≠ "TRANSFER")) = false := by
        by_cases ht : t = ""
        · simp [ht]
        · simp [ht, htype t rfl ht]
      dsimp only
      rw [hb]
      simp only [Bool.false_eq_true, if_false]
      rw [hres]
      dsimp only
      rw [if_neg hne]

/-- Witness for C2's amended theorem: a present "Transfer" type with a
resolvable name yields the inferred match. -/
theorem detect_transfer_by_txn_type_characterization_witness :
    detect_transfer_by_txn_type (some "Transfer") "Transfer : Savings" (-50)
      "acct-chk" cfgC2 =
      some { fromAccount := if (-50 : ℚ) < 0 then "acct-chk" else "acct-sav",
             toAccount := if (-50 : ℚ) < 0 then "acct-sav" else "acct-chk",
             transferType := infer_transfer_type "acct-chk" "acct-sav" cfgC2,
             pattern := "txn_type:Transfer : " ++ "Savings" } :=
  detect_transfer_by_txn_type_characterization.2 (some "Transfer")
    "Transfer : Savings" (-50) "acct-chk" cfgC2 "Savings" "acct-sav"
    (by decide) (by intro t ht _; cases ht; decide) (by decide) (by decide)

/-- C1 counterexample: a transfer-pattern categorization on a filtered
business account keeps the transfer category unfiltered, even though the
account's category-compatibility filter would override it. -/
theorem categorize_transfer_unfiltered :
    (categorize_transaction txnC1 cfgC1 none none none).method = "transfer"
    ∧ (categorize_transaction txnC1 cfgC1 none none none).categoryId = "personal-cat"
    ∧ apply_filter "personal-cat" (category_filter_for cfgC1 txnC1.accountId)
        = "biz-default"
    ∧ (categorize_transaction txnC1 cfgC1 none none none).categoryId
        ≠ apply_filter "personal-cat" (category_filter_for cfgC1 txnC1.accountId) := by
  refine ⟨?_, ?_, ?_, ?_⟩ <;> decide

/-- Claim C1 (amended): the merchant, historical, amount, account,
high-confidence merchant, receipt and AI steps pass their candidate category
through the account's category-compatibility filter before it is accepted,
while the transfer-pattern, transfer-inferred and interest-detection steps
return their candidate category without applying the filter. -/
theorem categorize_filter_per_step :
    ∀ (txn : Transaction) (config : Config)
      (rl : Option (Transaction → Option ReceiptResult))
      (cfn : Option (Transaction → Option ClaudeCategorizationResult))
      (repo : Option HistRepo),
    (∀ t, detect_transfer txn.rawDescription txn.accountId config = some t →
      (categorize_transaction txn config rl cfn repo).categoryId
          = transfer_category_for config t
      ∧ (categorize_transaction txn config rl cfn repo).method = "transfer")
    ∧ (detect_transfer txn.rawDescription txn.accountId config = none →
      ∀ t, detect_transfer_by_txn_type txn.txnType txn.rawDescription txn.amount
            txn.accountId config = some t →
      (categorize_transaction txn config rl cfn repo).categoryId
          = transfer_category_for config t
      ∧ (categorize_transaction txn config rl cfn repo).method = "transfer_inferred")
    ∧ (detect_transfer txn.rawDescription txn.accountId config = none →
      detect_transfer_by_txn_type txn.txnType txn.rawDescription txn.amount
        txn.accountId config = none →
      ∀ c, detect_interest txn.externalId txn.accountId config = some c →
      (categorize_transaction txn config rl cfn repo).categoryId = c
      ∧ (categorize_transaction txn config rl cfn repo).method = "interest_detection")
    ∧ (detect_transfer txn.rawDescription txn.accountId config = none →
      detect_transfer_by_txn_type txn.txnType txn.rawDescription txn.amount
        txn.accountId config = none →
      detect_interest txn.externalId txn.accountId config = none →
      ∀ m, match_merchant_auto txn.rawDescription config = some m →
      (categorize_transaction txn config rl cfn repo).categoryId
          = apply_filter m.categoryId (category_filter_for config txn.accountId)
      ∧ (categorize_transaction txn config rl cfn repo).method = "merchant_auto")
    ∧ (detect_transfer txn.rawDescription txn.accountId config = none →
      detect_transfer_by_txn_type txn.txnType txn.rawDescription txn.amount
        txn.accountId config = none →
      detect_interest txn.externalId txn.accountId config = none →
      match_merchant_auto txn.rawDescription config = none →
      ∀ h, historical_step txn repo = some h →
      (categorize_transaction txn config rl cfn repo).categoryId
          = apply_filter h.categoryId (category_filter_for config txn.accountId)
      ∧ (categorize_transaction txn config rl cfn repo).method = "historical_pattern")
    ∧ (detect_transfer txn.rawDescription txn.accountId config = none →
      detect_transfer_by_txn_type txn.txnType txn.rawDescription txn.amount
        txn.accountId config = none →
      detect_interest txn.externalId txn.accountId config = none →
      match_merchant_auto txn.rawDescription config = none →
      historical_step txn repo = none →
      ∀ m, match_amount_rule txn.rawDescription txn.amount config (some txn.accountId)
            = some m →
      (categorize_transaction txn config rl cfn repo).categoryId
          = apply_filter m.categoryId (category_filter_for config txn.accountId)
      ∧ (categorize_transaction txn config rl cfn repo).method = "amount_rule")
    ∧ (detect_transfer txn.rawDescription txn.accountId config = none →
      detect_transfer_by_txn_type txn.txnType txn.rawDescription txn.amount
        txn.accountId config = none →
      detect_interest txn.externalId txn.accountId config = none →
      match_merchant_auto txn.rawDescription config = none →
      historical_step txn repo = none →
      match_amount_rule txn.rawDescription txn.amount config (some txn.accountId) = none →
      ∀ m, match_account_rule txn.accountId config = some m →
      (categorize_transaction txn config rl cfn repo).categoryId
          = apply_filter m.categoryId (category_filter_for config txn.accountId)
      ∧ (categorize_transaction txn config rl cfn repo).method = "account_rule")
    ∧ (detect_transfer txn.rawDescription txn.accountId config = none →
      detect_transfer_by_txn_type txn.txnType txn.rawDescription txn.amount
        txn.accountId config = none →
      detect_interest txn.externalId txn.accountId config = none →
      match_merchant_auto txn.rawDescription config = none →
      historical_step txn repo = none →
      match_amount_rule txn.rawDescription txn.amount config (some txn.accountId) = none →
      match_account_rule txn.accountId config = none →
      ∀ m, match_merchant_high txn.rawDescription config = some m →
      (categorize_transaction txn config rl cfn repo).categoryId
          = apply_filter m.categoryId (category_filter_for config txn.accountId)
      ∧ (categorize_transaction txn config rl cfn repo).method = "merchant_high")
    ∧ (detect_transfer txn.rawDescription txn.accountId config = none →
      detect_transfer_by_txn_type txn.txnType txn.rawDescription txn.amount
        txn.accountId config = none →
      detect_interest txn.externalId txn.accountId config = none →
      match_merchant_auto txn.rawDescription config = none →
      historical_step txn repo = none →
      match_amount_rule txn.rawDescription txn.amount config (some txn.accountId) = none →
      match_account_rule txn.accountId config = none →
      match_merchant_high txn.rawDescription config = none →
      ∀ rr, receipt_step txn rl = some rr →
      (categorize_transaction txn config rl cfn repo).categoryId
          = apply_filter (receipt_primary_category rr config.fallbackCategory)
              (category_filter_for config txn.accountId)
      ∧ (categorize_transaction txn config rl cfn repo).method = "gmail_receipt")
    ∧ (detect_transfer txn.rawDescription txn.accountId config = none →
      detect_transfer_by_txn_type txn.txnType txn.rawDescription txn.amount
        txn.accountId config = none →
      detect_interest txn.externalId txn.accountId config = none →
      match_merchant_auto txn.rawDescription config = none →
      historical_step txn repo = none →
      match_amount_rule txn.rawDescription txn.amount config (some txn.accountId) = none →
      match_account_rule txn.accountId config = none →
      match_merchant_high txn.rawDescription config = none →
      receipt_step txn rl = none →
      ∀ c, claude_step txn cfn repo = some c →
      (categorize_transaction txn config rl cfn repo).categoryId
          = apply_filter c.categoryId (category_filter_for config txn.accountId)
      ∧ (categorize_transaction txn config rl cfn repo).method = "claude_ai") := by
  intro txn config rl cfn repo
  refine ⟨?_, ?_, ?_, ?_, ?_, ?_, ?_, ?_, ?_, ?_⟩
  · intro t ht
    constructor <;> simp [categorize_transaction, ht]
  · intro h1 t ht
    constructor <;> simp [categorize_transaction, h1, ht]
  · intro h1 h2 c hc
    constructor <;> simp [categorize_transaction, h1, h2, hc]
  · intro h1 h2 h3 m hm
    constructor <;> simp [categorize_transaction, h1, h2, h3, hm]
  · intro h1 h2 h3 h4 h hh
    constructor <;> simp [categorize_transaction, h1, h2, h3, h4, hh]
  · intro h1 h2 h3 h4 h5 m hm
    constructor <;> simp [categorize_transaction, h1, h2, h3, h4, h5, hm]
  · intro h1 h2 h3 h4 h5 h6 m hm
    constructor <;> simp [categorize_transaction, h1, h2, h3, h4, h5, h6, hm]
  · intro h1 h2 h3 h4 h5 h6 h7 m hm
    constructor <;> simp [categorize_transaction, h1, h2, h3, h4, h5, h6, h7, hm]
  · intro h1 h2 h3 h4 h5 h6 h7 h8 rr hrr
    constructor <;> simp [categorize_transaction, h1, h2, h3, h4, h5, h6, h7, h8, hrr]
  · intro h1 h2 h3 h4 h5 h6 h7 h8 h9 c hc
    constructor <;>
      simp [categorize_transaction, h1, h2, h3, h4, h5, h6, h7, h8, h9, hc]

/-- Witness for C1's amended theorem at the transfer-pattern fixture: the
category is the raw transfer category, not its filtered image. -/
theorem categorize_filter_per_step_witness :
    (categorize_transaction txnC1 cfgC1 none none none).categoryId
        = transfer_category_for cfgC1 tC1
    ∧ (categorize_transaction txnC1 cfgC1 none none none).method = "transfer" :=
  (categorize_filter_per_step txnC1 cfgC1 none none none).1 tC1 (by decide)

end MoMoney
